import Mathlib

/-!
Shallow embedding of the banking ledger from JosePRP1/projeto-solid.

Two Python variants are embedded faithfully:
  * `Original` — src/Projeto-solid/original/OriginalClasses.py
  * `Solid`    — src/Projeto-solid/solid/RefactoredClasses.py

Money is modelled as an integer number of cents: every amount stored in the
ledger has passed `_to_money`, which quantizes to two decimal places, so an
exact integer count of cents captures `Decimal` arithmetic at that scale.
`datetime.utcnow()` timestamps are not modelled (no claim depends on time);
all other `Transacao` fields are kept.  Exceptions are modelled with
`Except`; an operation returns its (possibly partially) mutated state
together with the outcome, threading state exactly as the Python statements
execute, so that a raise after a mutation would leave the mutation visible.
-/

/-- The exception classes of both variants.  `ErroBanco` subclasses
`ValorInvalido`, `SaldoInsuficiente` and `EntidadeNaoEncontrada` each carry a
message.  `decimalInvalidOperation` models an uncaught
`decimal.InvalidOperation` escaping `_to_money` (possible only in the
original variant, whose `quantize` call sits outside the `try`). -/
inductive Erro
| valorInvalido (msg : String)
| saldoInsuficiente (msg : String)
| entidadeNaoEncontrada (msg : String)
| decimalInvalidOperation
deriving Repr, DecidableEq

/-- `Cliente` dataclass (frozen): id, nome, cpf. -/
structure Cliente where
  id : Int
  nome : String
  cpf : String
deriving Repr, DecidableEq

/-- `Transacao` dataclass.  The `momento : datetime` field is not modelled;
`origem` and `destino` default to the empty string as in the source. -/
structure Transacao where
  tipo : String
  valor : Int
  descricao : String
  origem : String := ""
  destino : String := ""
deriving Repr, DecidableEq

/-! ### Association lists modelling Python `dict`

Python dicts preserve insertion order.  A fresh key is appended at the end;
mutating the object stored under a key edits that entry in place. -/

/-- First-match lookup, as Python `dict.get`. -/
def alookup {α : Type} : List (String × α) → String → Option α
| [], _ => none
| p :: t, k => if p.1 = k then some p.2 else alookup t k

/-- Replace the (unique, hence first) entry holding key `k`.  Models an
in-place mutation of the object stored under `k`. -/
def replaceFirst {α : Type} : List (String × α) → String → α → List (String × α)
| [], _, _ => []
| p :: t, k, v => if p.1 = k then (k, v) :: t else p :: replaceFirst t k v

/-- Python `d[k] = v`: overwrite in place if present, else append. -/
def dictSet {α : Type} (l : List (String × α)) (k : String) (v : α) : List (String × α) :=
  match alookup l k with
  | some _ => replaceFirst l k v
  | none => l ++ [(k, v)]

/-! ### Decimal parsing and quantization (`_to_money`)

`Decimal(str(valor))` followed by `.quantize(Decimal("0.01"))` under the
default context (`prec = 28`, `ROUND_HALF_EVEN`, traps on
`InvalidOperation`).  The string grammar modelled is Python's `Decimal`
grammar restricted to ASCII: optional surrounding whitespace, optional sign,
digits with an optional fraction part, an optional exponent, and the special
values NaN / sNaN / Infinity (which parse, but whose `quantize` raises
`InvalidOperation`).  `quantize` also raises when the rounded coefficient
exceeds the context precision of 28 digits. -/

/-- A parsed decimal literal: a finite value `m * 10 ^ e`, or a special
value (NaN or an infinity). -/
inductive PDec
| finite (m : Int) (e : Int)
| special
deriving Repr, DecidableEq

def isDig (c : Char) : Bool := ('0' ≤ c) && (c ≤ '9')

def digitsToNat (l : List Char) : Nat :=
  l.foldl (fun acc c => acc * 10 + (c.toNat - '0'.toNat)) 0

/-- Strip an optional leading sign; `true` means negative. -/
def parseSign : List Char → Bool × List Char
| '+' :: t => (false, t)
| '-' :: t => (true, t)
| l => (false, l)

/-- Parse the (possibly empty) exponent suffix; `none` on a malformed tail. -/
def parseExp : List Char → Option Int
| [] => some 0
| c :: t =>
  if c = 'e' ∨ c = 'E' then
    let st := parseSign t
    let ds := st.2.takeWhile isDig
    let rest := st.2.drop ds.length
    if ds = [] ∨ rest ≠ [] then none
    else some (if st.1 then -(digitsToNat ds : Int) else (digitsToNat ds : Int))
  else none

/-- Parse a string as Python `Decimal(s)` would: `none` when the constructor
raises `InvalidOperation` (unparseable input). -/
def parseDecimal (s : String) : Option PDec :=
  let l1 := s.toList.dropWhile Char.isWhitespace
  let l := (l1.reverse.dropWhile Char.isWhitespace).reverse
  let sg := parseSign l
  let lb := sg.2
  let low := lb.map Char.toLower
  if low = "inf".toList ∨ low = "infinity".toList then some .special
  else if low.take 3 = "nan".toList ∧ (low.drop 3).all isDig then some .special
  else if low.take 4 = "snan".toList ∧ (low.drop 4).all isDig then some .special
  else
    let ip := lb.takeWhile isDig
    let r1 := lb.drop ip.length
    match r1 with
    | '.' :: r2 =>
      let fp := r2.takeWhile isDig
      let r3 := r2.drop fp.length
      if ip = [] ∧ fp = [] then none
      else
        match parseExp r3 with
        | none => none
        | some e0 =>
          let m : Int := (digitsToNat (ip ++ fp) : Int)
          some (.finite (if sg.1 then -m else m) (e0 - (fp.length : Int)))
    | _ =>
      if ip = [] then none
      else
        match parseExp r1 with
        | none => none
        | some e0 =>
          some (.finite (if sg.1 then -(digitsToNat ip : Int) else (digitsToNat ip : Int)) e0)

/-- Round `n / d` (for `d > 0`) to the nearest integer, ties to even —
`ROUND_HALF_EVEN`, the default `Decimal` rounding. -/
def roundHalfEvenDiv (n d : Int) : Int :=
  let q := Int.ediv n d
  let r := Int.emod n d
  if 2 * r < d then q else if d < 2 * r then q + 1 else if q % 2 = 0 then q else q + 1

/-- `quantize(Decimal("0.01"))` on a finite value `m * 10 ^ e`, returning the
value in cents; `none` when `quantize` raises `InvalidOperation` because the
rounded coefficient needs more than the context precision of 28 digits
(a coefficient has at most 28 digits iff it is below `10 ^ 28`). -/
def quantizeCents (m e : Int) : Option Int :=
  let k := e + 2
  let c := if 0 ≤ k then m * (10 : Int) ^ k.toNat else roundHalfEvenDiv m ((10 : Int) ^ (-k).toNat)
  if c.natAbs < 10 ^ 28 then some c else none

namespace Original

/-- `Banco._to_money` of the original variant.  Only the `Decimal`
constructor is inside the `try`; `quantize` is outside it, so a NaN/infinity
or an over-precision value lets `decimal.InvalidOperation` escape uncaught
(modelled as `Erro.decimalInvalidOperation`).  With string input the
`isinstance(valor, Decimal)` branch is not taken and `str(valor)` is the
identity. -/
def to_money (valor : String) : Except Erro Int :=
  match parseDecimal valor with
  | none => .error (.valorInvalido "valor inválido")
  | some .special => .error .decimalInvalidOperation
  | some (.finite m e) =>
    match quantizeCents m e with
    | none => .error .decimalInvalidOperation
    | some c => .ok c

end Original

namespace Solid

/-- `Banco._to_money` of the refactored variant: the whole expression
`Decimal(str(valor)).quantize(Decimal("0.01"))` sits inside the `try`, so
every `InvalidOperation` becomes `ValorInvalido`. -/
def to_money (valor : String) : Except Erro Int :=
  match parseDecimal valor with
  | none => .error (.valorInvalido "valor inválido")
  | some .special => .error (.valorInvalido "valor inválido")
  | some (.finite m e) =>
    match quantizeCents m e with
    | none => .error (.valorInvalido "valor inválido")
    | some c => .ok c

end Solid

namespace Original

/-- `Conta` dataclass of the original variant: saldo starts at
`Decimal("0.00")`, historico at `[]`. -/
structure Conta where
  numero : String
  cliente : Cliente
  saldo : Int := 0
  historico : List Transacao := []
deriving Repr, DecidableEq

/-- `Conta.depositar`: validation precedes mutation; on success the balance
grows and a DEPOSITO record (destino = this account) is appended. -/
def Conta.depositar (c : Conta) (valor : Int) (descricao : String) :
    Conta × Except Erro Unit :=
  if valor ≤ 0 then (c, .error (.valorInvalido "valor deve ser positivo"))
  else
    ({ c with
        saldo := c.saldo + valor,
        historico := c.historico ++
          [{ tipo := "DEPOSITO", valor := valor, descricao := descricao,
             destino := c.numero }] },
      .ok ())

/-- `Conta.sacar`: validates positivity then funds; on success the balance
shrinks and a SAQUE record (origem = this account) is appended. -/
def Conta.sacar (c : Conta) (valor : Int) (descricao : String) :
    Conta × Except Erro Unit :=
  if valor ≤ 0 then (c, .error (.valorInvalido "valor deve ser positivo"))
  else if c.saldo < valor then (c, .error (.saldoInsuficiente "saldo insuficiente"))
  else
    ({ c with
        saldo := c.saldo - valor,
        historico := c.historico ++
          [{ tipo := "SAQUE", valor := valor, descricao := descricao,
             origem := c.numero }] },
      .ok ())

/-- `Banco.__init__` state: two insertion-ordered dicts and two counters. -/
structure Banco where
  clientes_por_cpf : List (String × Cliente) := []
  contas_por_numero : List (String × Conta) := []
  seq_cliente : Int := 1
  seq_conta : Int := 1001
deriving Repr, DecidableEq

def Banco.init : Banco := {}

/-- Write back the (in-place mutated) `Conta` object stored under key `k`. -/
def Banco.updateConta (b : Banco) (k : String) (c : Conta) : Banco :=
  { b with contas_por_numero := replaceFirst b.contas_por_numero k c }

/-- `Banco.criar_cliente`: return the existing Cliente for a known cpf,
otherwise register a fresh one and advance the counter. -/
def Banco.criar_cliente (b : Banco) (nome cpf : String) : Cliente × Banco :=
  match alookup b.clientes_por_cpf cpf with
  | some c => (c, b)
  | none =>
    let c : Cliente := { id := b.seq_cliente, nome := nome, cpf := cpf }
    (c, { b with
            clientes_por_cpf := dictSet b.clientes_por_cpf cpf c,
            seq_cliente := b.seq_cliente + 1 })

/-- `Banco.abrir_conta`: unknown cpf raises; otherwise a fresh account under
the next sequential number. -/
def Banco.abrir_conta (b : Banco) (cpf : String) : Banco × Except Erro Conta :=
  match alookup b.clientes_por_cpf cpf with
  | none => (b, .error (.entidadeNaoEncontrada "cliente não encontrado"))
  | some cliente =>
    let numero := toString b.seq_conta
    let conta : Conta := { numero := numero, cliente := cliente }
    ({ b with
        contas_por_numero := dictSet b.contas_por_numero numero conta,
        seq_conta := b.seq_conta + 1 },
      .ok conta)

/-- `Banco.buscar_conta` (read-only). -/
def Banco.buscar_conta (b : Banco) (numero : String) : Except Erro Conta :=
  match alookup b.contas_por_numero numero with
  | none => .error (.entidadeNaoEncontrada "conta não encontrada")
  | some conta => .ok conta

/-- `Banco.depositar`: `buscar_conta` is evaluated before `_to_money`
(Python evaluates the receiver before the argument). -/
def Banco.depositar (b : Banco) (numero valor : String) : Banco × Except Erro Unit :=
  match b.buscar_conta numero with
  | .error e => (b, .error e)
  | .ok conta =>
    match to_money valor with
    | .error e => (b, .error e)
    | .ok v =>
      let r := conta.depositar v "depósito"
      (b.updateConta numero r.1, r.2)

/-- `Banco.sacar`. -/
def Banco.sacar (b : Banco) (numero valor : String) : Banco × Except Erro Unit :=
  match b.buscar_conta numero with
  | .error e => (b, .error e)
  | .ok conta =>
    match to_money valor with
    | .error e => (b, .error e)
    | .ok v =>
      let r := conta.sacar v "saque"
      (b.updateConta numero r.1, r.2)

/-- `Banco.transferir` of the original variant.  Order of effects as in the
source: raw-string same-account check, `_to_money`, both lookups, withdraw
from the source, deposit into the destination, then append one shared
TRANSFERENCIA record to both histories.  State is threaded through every
step so a raise leaves all previous mutations in place. -/
def Banco.transferir (b : Banco) (origem destino valor : String) :
    Banco × Except Erro Unit :=
  if origem = destino then (b, .error (.valorInvalido "contas iguais"))
  else
    match to_money valor with
    | .error e => (b, .error e)
    | .ok v =>
      match b.buscar_conta origem with
      | .error e => (b, .error e)
      | .ok co =>
        match b.buscar_conta destino with
        | .error e => (b, .error e)
        | .ok cd =>
          let rs := co.sacar v ("transferência para " ++ destino)
          match rs.2 with
          | .error e => (b.updateConta origem rs.1, .error e)
          | .ok _ =>
            let rd := cd.depositar v ("transferência de " ++ origem)
            match rd.2 with
            | .error e => ((b.updateConta origem rs.1).updateConta destino rd.1, .error e)
            | .ok _ =>
              let t : Transacao :=
                { tipo := "TRANSFERENCIA", valor := v, descricao := "transferência",
                  origem := origem, destino := destino }
              ((b.updateConta origem
                  { rs.1 with historico := rs.1.historico ++ [t] }).updateConta destino
                  { rd.1 with historico := rd.1.historico ++ [t] },
                .ok ())

/-- `Banco.listar_clientes_e_contas`: one pair per registered customer (in
registration order) with that customer's accounts in creation order. -/
def Banco.listar_clientes_e_contas (b : Banco) : List (Cliente × List Conta) :=
  b.clientes_por_cpf.map (fun p =>
    (p.2, (b.contas_por_numero.filter (fun q => q.2.cliente.cpf = p.1)).map (fun q => q.2)))

/-- `Banco.extrato`: `list(historico)` — a snapshot copy, read-only. -/
def Banco.extrato (b : Banco) (numero : String) : Except Erro (List Transacao) :=
  match b.buscar_conta numero with
  | .error e => .error e
  | .ok conta => .ok conta.historico

end Original

namespace Solid

/-- `RegistroTransacoes`: the single-responsibility transaction recorder —
a wrapped append-only list. -/
structure RegistroTransacoes where
  historico : List Transacao := []
deriving Repr, DecidableEq

/-- `RegistroTransacoes.registrar`: append at the end. -/
def RegistroTransacoes.registrar (r : RegistroTransacoes) (t : Transacao) :
    RegistroTransacoes :=
  { r with historico := r.historico ++ [t] }

/-- `RegistroTransacoes.listar`: `list(self._historico)` — a snapshot copy. -/
def RegistroTransacoes.listar (r : RegistroTransacoes) : List Transacao :=
  r.historico

/-- `Conta` dataclass of the refactored variant: the history lives in a
`RegistroTransacoes`. -/
structure Conta where
  numero : String
  cliente : Cliente
  saldo : Int := 0
  transacoes : RegistroTransacoes := {}
deriving Repr, DecidableEq

/-- `Conta.depositar` (refactored): identical validation and effect, with
the record routed through `RegistroTransacoes.registrar`. -/
def Conta.depositar (c : Conta) (valor : Int) (descricao : String) :
    Conta × Except Erro Unit :=
  if valor ≤ 0 then (c, .error (.valorInvalido "valor deve ser positivo"))
  else
    ({ c with
        saldo := c.saldo + valor,
        transacoes := c.transacoes.registrar
          { tipo := "DEPOSITO", valor := valor, descricao := descricao,
            destino := c.numero } },
      .ok ())

/-- `Conta.sacar` (refactored). -/
def Conta.sacar (c : Conta) (valor : Int) (descricao : String) :
    Conta × Except Erro Unit :=
  if valor ≤ 0 then (c, .error (.valorInvalido "valor deve ser positivo"))
  else if c.saldo < valor then (c, .error (.saldoInsuficiente "saldo insuficiente"))
  else
    ({ c with
        saldo := c.saldo - valor,
        transacoes := c.transacoes.registrar
          { tipo := "SAQUE", valor := valor, descricao := descricao,
            origem := c.numero } },
      .ok ())

/-- `Transferencia.executar`: compares the two accounts' `numero` fields,
withdraws, deposits, then registers one shared TRANSFERENCIA record with
both accounts.  Returns both (possibly mutated) accounts plus the outcome,
threading partial mutation faithfully. -/
def Transferencia.executar (origem destino : Conta) (valor : Int) :
    (Conta × Conta) × Except Erro Unit :=
  if origem.numero = destino.numero then
    ((origem, destino), .error (.valorInvalido "contas iguais"))
  else
    let rs := origem.sacar valor ("Transferência para " ++ destino.numero)
    match rs.2 with
    | .error e => ((rs.1, destino), .error e)
    | .ok _ =>
      let rd := destino.depositar valor ("Transferência de " ++ origem.numero)
      match rd.2 with
      | .error e => ((rs.1, rd.1), .error e)
      | .ok _ =>
        let t : Transacao :=
          { tipo := "TRANSFERENCIA", valor := valor, descricao := "Transferência",
            origem := origem.numero, destino := destino.numero }
        (({ rs.1 with transacoes := rs.1.transacoes.registrar t },
          { rd.1 with transacoes := rd.1.transacoes.registrar t }), .ok ())

/-- `Banco.__init__` (refactored); the injectable `cliente_cls`/`conta_cls`
parameters default to the dataclass constructors modelled here. -/
structure Banco where
  clientes_por_cpf : List (String × Cliente) := []
  contas_por_numero : List (String × Conta) := []
  seq_cliente : Int := 1
  seq_conta : Int := 1001
deriving Repr, DecidableEq

def Banco.init : Banco := {}

/-- Write back the (in-place mutated) `Conta` object stored under key `k`. -/
def Banco.updateConta (b : Banco) (k : String) (c : Conta) : Banco :=
  { b with contas_por_numero := replaceFirst b.contas_por_numero k c }

/-- `Banco.criar_cliente` (refactored, textually identical logic). -/
def Banco.criar_cliente (b : Banco) (nome cpf : String) : Cliente × Banco :=
  match alookup b.clientes_por_cpf cpf with
  | some c => (c, b)
  | none =>
    let c : Cliente := { id := b.seq_cliente, nome := nome, cpf := cpf }
    (c, { b with
            clientes_por_cpf := dictSet b.clientes_por_cpf cpf c,
            seq_cliente := b.seq_cliente + 1 })

/-- `Banco.abrir_conta` (refactored). -/
def Banco.abrir_conta (b : Banco) (cpf : String) : Banco × Except Erro Conta :=
  match alookup b.clientes_por_cpf cpf with
  | none => (b, .error (.entidadeNaoEncontrada "cliente não encontrado"))
  | some cliente =>
    let numero := toString b.seq_conta
    let conta : Conta := { numero := numero, cliente := cliente }
    ({ b with
        contas_por_numero := dictSet b.contas_por_numero numero conta,
        seq_conta := b.seq_conta + 1 },
      .ok conta)

/-- `Banco.buscar_conta` (refactored, read-only). -/
def Banco.buscar_conta (b : Banco) (numero : String) : Except Erro Conta :=
  match alookup b.contas_por_numero numero with
  | none => .error (.entidadeNaoEncontrada "conta não encontrada")
  | some conta => .ok conta

/-- `Banco.depositar` (refactored): lookup, then `_to_money`, then the
account method (default description "Depósito"). -/
def Banco.depositar (b : Banco) (numero valor : String) : Banco × Except Erro Unit :=
  match b.buscar_conta numero with
  | .error e => (b, .error e)
  | .ok conta =>
    match to_money valor with
    | .error e => (b, .error e)
    | .ok v =>
      let r := conta.depositar v "Depósito"
      (b.updateConta numero r.1, r.2)

/-- `Banco.sacar` (refactored). -/
def Banco.sacar (b : Banco) (numero valor : String) : Banco × Except Erro Unit :=
  match b.buscar_conta numero with
  | .error e => (b, .error e)
  | .ok conta =>
    match to_money valor with
    | .error e => (b, .error e)
    | .ok v =>
      let r := conta.sacar v "Saque"
      (b.updateConta numero r.1, r.2)

/-- `Banco.transferir` (refactored): the `Transferencia` constructor
arguments are evaluated left to right — lookup of origem, lookup of
destino, `_to_money` — and only then `executar` runs. -/
def Banco.transferir (b : Banco) (origem destino valor : String) :
    Banco × Except Erro Unit :=
  match b.buscar_conta origem with
  | .error e => (b, .error e)
  | .ok co =>
    match b.buscar_conta destino with
    | .error e => (b, .error e)
    | .ok cd =>
      match to_money valor with
      | .error e => (b, .error e)
      | .ok v =>
        let r := Transferencia.executar co cd v
        ((b.updateConta origem r.1.1).updateConta destino r.1.2, r.2)

/-- `Banco.extrato` (refactored): `transacoes.listar()`. -/
def Banco.extrato (b : Banco) (numero : String) : Except Erro (List Transacao) :=
  match b.buscar_conta numero with
  | .error e => .error e
  | .ok conta => .ok conta.transacoes.listar

/-- `Banco.listar_clientes_e_contas` (refactored): iterates the customers
and groups by `cliente.cpf` (the original indexes the group map by the dict
key instead; the key always equals `cliente.cpf`). -/
def Banco.listar_clientes_e_contas (b : Banco) : List (Cliente × List Conta) :=
  b.clientes_por_cpf.map (fun p =>
    (p.2, (b.contas_por_numero.filter (fun q => q.2.cliente.cpf = p.2.cpf)).map (fun q => q.2)))

end Solid

/-! ### Public call alphabet and observable erasure

`Op` lists the public ledger calls; `applyO`/`applyS` interpret one call in
the corresponding variant, returning the next state and the observable
result.  The erased observables (`ETrans`, `EConta`, `EBanco`, `Obs`) drop
only the free-text `descricao` field of transactions, which is the one
place where the two variants' outputs differ in wording. -/

/-- A public ledger call with its raw string arguments. -/
inductive Op
| criarCliente (nome cpf : String)
| abrirConta (cpf : String)
| buscarConta (numero : String)
| depositar (numero valor : String)
| sacar (numero valor : String)
| transferir (origem destino valor : String)
| extrato (numero : String)
| listar
deriving Repr, DecidableEq

/-- A transaction with its description text erased. -/
structure ETrans where
  tipo : String
  valor : Int
  origem : String
  destino : String
deriving Repr, DecidableEq

def eraseTrans (t : Transacao) : ETrans :=
  { tipo := t.tipo, valor := t.valor, origem := t.origem, destino := t.destino }

/-- An account with descriptions erased from its history. -/
structure EConta where
  numero : String
  cliente : Cliente
  saldo : Int
  historico : List ETrans
deriving Repr, DecidableEq

def eraseContaO (c : Original.Conta) : EConta :=
  { numero := c.numero, cliente := c.cliente, saldo := c.saldo,
    historico := c.historico.map eraseTrans }

def eraseContaS (c : Solid.Conta) : EConta :=
  { numero := c.numero, cliente := c.cliente, saldo := c.saldo,
    historico := c.transacoes.historico.map eraseTrans }

/-- A full ledger state with descriptions erased. -/
structure EBanco where
  clientes_por_cpf : List (String × Cliente)
  contas_por_numero : List (String × EConta)
  seq_cliente : Int
  seq_conta : Int
deriving Repr, DecidableEq

def eraseBancoO (b : Original.Banco) : EBanco :=
  { clientes_por_cpf := b.clientes_por_cpf,
    contas_por_numero := b.contas_por_numero.map (fun p => (p.1, eraseContaO p.2)),
    seq_cliente := b.seq_cliente, seq_conta := b.seq_conta }

def eraseBancoS (b : Solid.Banco) : EBanco :=
  { clientes_por_cpf := b.clientes_por_cpf,
    contas_por_numero := b.contas_por_numero.map (fun p => (p.1, eraseContaS p.2)),
    seq_cliente := b.seq_cliente, seq_conta := b.seq_conta }

/-- The observable (description-erased) result of one public call. -/
inductive Obs
| clienteRes (c : Cliente)
| contaRes (c : EConta)
| okRes
| extratoRes (l : List ETrans)
| listagemRes (l : List (Cliente × List EConta))
deriving Repr, DecidableEq

/-- Interpret one public call in the original variant. -/
def applyO (b : Original.Banco) : Op → Original.Banco × Except Erro Obs
| .criarCliente nome cpf =>
  let r := b.criar_cliente nome cpf
  (r.2, .ok (.clienteRes r.1))
| .abrirConta cpf =>
  let r := b.abrir_conta cpf
  (r.1, r.2.map (fun c => .contaRes (eraseContaO c)))
| .buscarConta n => (b, (b.buscar_conta n).map (fun c => .contaRes (eraseContaO c)))
| .depositar n v =>
  let r := b.depositar n v
  (r.1, r.2.map (fun _ => .okRes))
| .sacar n v =>
  let r := b.sacar n v
  (r.1, r.2.map (fun _ => .okRes))
| .transferir o d v =>
  let r := b.transferir o d v
  (r.1, r.2.map (fun _ => .okRes))
| .extrato n => (b, (b.extrato n).map (fun l => .extratoRes (l.map eraseTrans)))
| .listar =>
  (b, .ok (.listagemRes ((b.listar_clientes_e_contas).map
      (fun p => (p.1, p.2.map eraseContaO)))))

/-- Interpret one public call in the refactored variant. -/
def applyS (b : Solid.Banco) : Op → Solid.Banco × Except Erro Obs
| .criarCliente nome cpf =>
  let r := b.criar_cliente nome cpf
  (r.2, .ok (.clienteRes r.1))
| .abrirConta cpf =>
  let r := b.abrir_conta cpf
  (r.1, r.2.map (fun c => .contaRes (eraseContaS c)))
| .buscarConta n => (b, (b.buscar_conta n).map (fun c => .contaRes (eraseContaS c)))
| .depositar n v =>
  let r := b.depositar n v
  (r.1, r.2.map (fun _ => .okRes))
| .sacar n v =>
  let r := b.sacar n v
  (r.1, r.2.map (fun _ => .okRes))
| .transferir o d v =>
  let r := b.transferir o d v
  (r.1, r.2.map (fun _ => .okRes))
| .extrato n => (b, (b.extrato n).map (fun l => .extratoRes (l.map eraseTrans)))
| .listar =>
  (b, .ok (.listagemRes ((b.listar_clientes_e_contas).map
      (fun p => (p.1, p.2.map eraseContaS)))))

/-- Run a call sequence from a fresh original-variant ledger. -/
def runO (ops : List Op) : Original.Banco :=
  ops.foldl (fun b op => (applyO b op).1) Original.Banco.init

/-- Run a call sequence from a fresh refactored-variant ledger. -/
def runS (ops : List Op) : Solid.Banco :=
  ops.foldl (fun b op => (applyS b op).1) Solid.Banco.init

/-- Run a call sequence in the original variant, collecting each call's
observable outcome. -/
def runOutO (ops : List Op) : Original.Banco × List (Except Erro Obs) :=
  ops.foldl (fun acc op =>
    let r := applyO acc.1 op
    (r.1, acc.2 ++ [r.2])) (Original.Banco.init, [])

/-- Run a call sequence in the refactored variant, collecting outcomes. -/
def runOutS (ops : List Op) : Solid.Banco × List (Except Erro Obs) :=
  ops.foldl (fun acc op =>
    let r := applyS acc.1 op
    (r.1, acc.2 ++ [r.2])) (Solid.Banco.init, [])

/-- Signed effect of one log entry on its account's balance, as the spec
words it: the credit leg of a transfer is its DEPOSITO entry and the debit
leg its SAQUE entry; the shared TRANSFERENCIA record is the bookkeeping
summary of those two legs and moves no money itself. -/
def signedAmount (t : Transacao) : Int :=
  if t.tipo = "DEPOSITO" then t.valor
  else if t.tipo = "SAQUE" then -t.valor
  else 0

/-- Sum of signed amounts over a transaction log. -/
def signedSum (l : List Transacao) : Int := (l.map signedAmount).sum

/-- The ledger invariant of one account: balance equals the signed sum of
its log and is never negative. -/
def contaLedgerOk (c : Original.Conta) : Prop :=
  c.saldo = signedSum c.historico ∧ 0 ≤ c.saldo

/-- The ledger invariant over every registered account. -/
def contasLedgerOk (b : Original.Banco) : Prop :=
  ∀ p ∈ b.contas_por_numero, contaLedgerOk p.2

/-- Structural invariant: an account is registered under its own number. -/
def numeroKeyOk (b : Original.Banco) : Prop :=
  ∀ p ∈ b.contas_por_numero, p.2.numero = p.1

/-- Structural invariant: a customer is registered under their own cpf. -/
def cpfKeyOk (b : Original.Banco) : Prop :=
  ∀ p ∈ b.clientes_por_cpf, p.2.cpf = p.1

/-- Outcome matching for the variant-equivalence statement: equal
observables on success; on failure both variants fail (the error kinds may
differ). -/
def resMatch (r1 r2 : Except Erro Obs) : Prop :=
  (∃ o, r1 = .ok o ∧ r2 = .ok o) ∨
  ((∃ e1, r1 = .error e1) ∧ (∃ e2, r2 = .error e2))

/-- The SAQUE record a successful original-variant transfer appends to the
source log (`origem` is the source account's own number). -/
def origSaqueT (numero destino : String) (v : Int) : Transacao :=
  { tipo := "SAQUE", valor := v, descricao := "transferência para " ++ destino,
    origem := numero }

/-- The DEPOSITO record a successful original-variant transfer appends to
the destination log. -/
def origDepT (numero origem : String) (v : Int) : Transacao :=
  { tipo := "DEPOSITO", valor := v, descricao := "transferência de " ++ origem,
    destino := numero }

/-- The shared TRANSFERENCIA record of the original variant. -/
def origTransT (origem destino : String) (v : Int) : Transacao :=
  { tipo := "TRANSFERENCIA", valor := v, descricao := "transferência",
    origem := origem, destino := destino }

/-- The SAQUE record a successful refactored-variant transfer appends. -/
def solidSaqueT (numero destinoNumero : String) (v : Int) : Transacao :=
  { tipo := "SAQUE", valor := v,
    descricao := "Transferência para " ++ destinoNumero, origem := numero }

/-- The DEPOSITO record a successful refactored-variant transfer appends. -/
def solidDepT (numero origemNumero : String) (v : Int) : Transacao :=
  { tipo := "DEPOSITO", valor := v,
    descricao := "Transferência de " ++ origemNumero, destino := numero }

/-- The shared TRANSFERENCIA record of the refactored variant. -/
def solidTransT (origemNumero destinoNumero : String) (v : Int) : Transacao :=
  { tipo := "TRANSFERENCIA", valor := v, descricao := "Transferência",
    origem := origemNumero, destino := destinoNumero }

/-- The DEPOSITO record appended by a plain deposit (either variant;
`desc` is the default description the bank layer passes). -/
def bankDepT (numero desc : String) (v : Int) : Transacao :=
  { tipo := "DEPOSITO", valor := v, descricao := desc, destino := numero }

/-- The SAQUE record appended by a plain withdrawal. -/
def bankSaqueT (numero desc : String) (v : Int) : Transacao :=
  { tipo := "SAQUE", valor := v, descricao := desc, origem := numero }

/-! ## Theorems -/

example : Original.to_money "10" = .ok 1000 := by rfl
example : Original.to_money "10.00" = .ok 1000 := by rfl
example : Original.to_money "10.001" = .ok 1000 := by rfl
example : Original.to_money "abc" = .error (.valorInvalido "valor inválido") := by rfl
example : Original.to_money "NaN" = .error .decimalInvalidOperation := by rfl
example : Solid.to_money "NaN" = .error (.valorInvalido "valor inválido") := by rfl
example : Original.to_money "-10.005" = .ok (-1000) := by rfl
example : Original.to_money "10.015" = .ok 1002 := by rfl
example : Original.to_money "1e30" = .error .decimalInvalidOperation := by rfl
example : Original.to_money " 2.5 " = .ok 250 := by rfl

section AssocListLemmas

variable {α : Type}

theorem alookup_mem {l : List (String × α)} {k : String} {v : α}
    (h : alookup l k = some v) : (k, v) ∈ l := by
  induction l with
  | nil => simp [alookup] at h
  | cons p t ih =>
    rw [alookup] at h
    by_cases hp : p.1 = k
    · rw [if_pos hp] at h
      have hv : p.2 = v := Option.some.inj h
      have hpkv : p = (k, v) := by
        cases p
        simp only at hp hv
        rw [hp, hv]
      rw [← hpkv]
      exact List.mem_cons_self _ _
    · rw [if_neg hp] at h
      exact List.mem_cons_of_mem _ (ih h)

theorem replaceFirst_self {l : List (String × α)} {k : String} {v : α}
    (h : alookup l k = some v) : replaceFirst l k v = l := by
  induction l with
  | nil => simp [alookup] at h
  | cons p t ih =>
    rw [alookup] at h
    rw [replaceFirst]
    by_cases hp : p.1 = k
    · simp only [hp, if_pos rfl] at h ⊢
      cases h
      cases p
      simp_all
    · simp only [if_neg hp] at h ⊢
      rw [ih h]

theorem alookup_replaceFirst_eq {l : List (String × α)} {k : String} {v : α}
    (h : (alookup l k).isSome) : alookup (replaceFirst l k v) k = some v := by
  induction l with
  | nil => simp [alookup] at h
  | cons p t ih =>
    rw [alookup] at h
    rw [replaceFirst]
    by_cases hp : p.1 = k
    · simp [hp, alookup]
    · simp only [if_neg hp] at h ⊢
      rw [alookup, if_neg hp]
      exact ih h

theorem alookup_replaceFirst_ne {l : List (String × α)} {k k' : String} {v : α}
    (h : k' ≠ k) : alookup (replaceFirst l k v) k' = alookup l k' := by
  induction l with
  | nil => simp [replaceFirst]
  | cons p t ih =>
    rw [replaceFirst]
    by_cases hp : p.1 = k
    · have hk : ¬ (k = k') := fun hc => h hc.symm
      have hp2 : ¬ (p.1 = k') := by rw [hp]; exact hk
      rw [if_pos hp]
      simp only [alookup, hk, if_false, hp2]
    · rw [if_neg hp]
      simp only [alookup, ih]

theorem mem_replaceFirst {l : List (String × α)} {k : String} {v : α}
    {p : String × α} (h : p ∈ replaceFirst l k v) : p = (k, v) ∨ p ∈ l := by
  induction l with
  | nil => simp [replaceFirst] at h
  | cons q t ih =>
    rw [replaceFirst] at h
    by_cases hq : q.1 = k
    · simp only [hq, if_pos rfl] at h
      rcases List.mem_cons.mp h with h1 | h2
      · exact Or.inl h1
      · exact Or.inr (List.mem_cons_of_mem _ h2)
    · simp only [if_neg hq] at h
      rcases List.mem_cons.mp h with h1 | h2
      · exact Or.inr (h1 ▸ List.mem_cons_self _ _)
      · rcases ih h2 with h3 | h4
        · exact Or.inl h3
        · exact Or.inr (List.mem_cons_of_mem _ h4)

theorem mem_dictSet {l : List (String × α)} {k : String} {v : α}
    {p : String × α} (h : p ∈ dictSet l k v) : p = (k, v) ∨ p ∈ l := by
  rw [dictSet] at h
  cases hl : alookup l k with
  | some w => rw [hl] at h; exact mem_replaceFirst h
  | none =>
    rw [hl] at h
    rcases List.mem_append.mp h with h1 | h2
    · exact Or.inr h1
    · simp at h2
      exact Or.inl h2

theorem alookup_mapVal {β : Type} (f : α → β) (l : List (String × α)) (k : String) :
    alookup (l.map (fun p => (p.1, f p.2))) k = (alookup l k).map f := by
  induction l with
  | nil => simp [alookup]
  | cons p t ih =>
    rw [List.map_cons, alookup, alookup]
    by_cases hp : p.1 = k
    · simp [hp]
    · simp only [hp, if_false, if_neg hp]
      exact ih

theorem replaceFirst_mapVal {β : Type} (f : α → β) (l : List (String × α))
    (k : String) (v : α) :
    replaceFirst (l.map (fun p => (p.1, f p.2))) k (f v) =
      (replaceFirst l k v).map (fun p => (p.1, f p.2)) := by
  induction l with
  | nil => simp [replaceFirst]
  | cons p t ih =>
    rw [List.map_cons, replaceFirst, replaceFirst]
    by_cases hp : p.1 = k
    · simp [hp]
    · simp only [hp, if_false, if_neg hp, List.map_cons, ih]

theorem dictSet_mapVal {β : Type} (f : α → β) (l : List (String × α))
    (k : String) (v : α) :
    dictSet (l.map (fun p => (p.1, f p.2))) k (f v) =
      (dictSet l k v).map (fun p => (p.1, f p.2)) := by
  rw [dictSet, dictSet, alookup_mapVal]
  cases hl : alookup l k with
  | some w => simp [replaceFirst_mapVal]
  | none => simp

end AssocListLemmas

section ContaLemmas

theorem origDepositar_error_state {c : Original.Conta} {v : Int} {d : String} {e : Erro}
    (h : (c.depositar v d).2 = .error e) : (c.depositar v d).1 = c := by
  rw [Original.Conta.depositar] at h ⊢
  by_cases hv : v ≤ 0 <;> simp [hv] at h ⊢

theorem origDepositar_pos_ok {c : Original.Conta} {v : Int} {d : String}
    (h : 0 < v) : (c.depositar v d).2 = .ok () := by
  rw [Original.Conta.depositar]
  simp [not_le.mpr h]

theorem origSacar_error_state {c : Original.Conta} {v : Int} {d : String} {e : Erro}
    (h : (c.sacar v d).2 = .error e) : (c.sacar v d).1 = c := by
  rw [Original.Conta.sacar] at h ⊢
  by_cases hv : v ≤ 0
  · simp [hv]
  · by_cases hs : c.saldo < v <;> simp [hv, hs] at h ⊢

theorem origSacar_ok_bounds {c : Original.Conta} {v : Int} {d : String} {u : Unit}
    (h : (c.sacar v d).2 = .ok u) : 0 < v ∧ v ≤ c.saldo := by
  rw [Original.Conta.sacar] at h
  by_cases hv : v ≤ 0
  · simp [hv] at h
  · by_cases hs : c.saldo < v
    · simp [hv, hs] at h
    · exact ⟨not_le.mp hv, not_lt.mp hs⟩

theorem solidDepositar_error_state {c : Solid.Conta} {v : Int} {d : String} {e : Erro}
    (h : (c.depositar v d).2 = .error e) : (c.depositar v d).1 = c := by
  rw [Solid.Conta.depositar] at h ⊢
  by_cases hv : v ≤ 0 <;> simp [hv] at h ⊢

theorem solidDepositar_pos_ok {c : Solid.Conta} {v : Int} {d : String}
    (h : 0 < v) : (c.depositar v d).2 = .ok () := by
  rw [Solid.Conta.depositar]
  simp [not_le.mpr h]

theorem solidSacar_error_state {c : Solid.Conta} {v : Int} {d : String} {e : Erro}
    (h : (c.sacar v d).2 = .error e) : (c.sacar v d).1 = c := by
  rw [Solid.Conta.sacar] at h ⊢
  by_cases hv : v ≤ 0
  · simp [hv]
  · by_cases hs : c.saldo < v <;> simp [hv, hs] at h ⊢

theorem solidSacar_ok_bounds {c : Solid.Conta} {v : Int} {d : String} {u : Unit}
    (h : (c.sacar v d).2 = .ok u) : 0 < v ∧ v ≤ c.saldo := by
  rw [Solid.Conta.sacar] at h
  by_cases hv : v ≤ 0
  · simp [hv] at h
  · by_cases hs : c.saldo < v
    · simp [hv, hs] at h
    · exact ⟨not_le.mp hv, not_lt.mp hs⟩

end ContaLemmas

section BancoBasicLemmas

theorem origBuscar_some {b : Original.Banco} {n : String} {c : Original.Conta}
    (h : b.buscar_conta n = .ok c) : alookup b.contas_por_numero n = some c := by
  rw [Original.Banco.buscar_conta] at h
  cases hl : alookup b.contas_por_numero n with
  | none => rw [hl] at h; cases h
  | some w => rw [hl] at h; cases h; rfl

theorem solidBuscar_some {b : Solid.Banco} {n : String} {c : Solid.Conta}
    (h : b.buscar_conta n = .ok c) : alookup b.contas_por_numero n = some c := by
  rw [Solid.Banco.buscar_conta] at h
  cases hl : alookup b.contas_por_numero n with
  | none => rw [hl] at h; cases h
  | some w => rw [hl] at h; cases h; rfl

theorem origUpdateConta_self {b : Original.Banco} {k : String} {c : Original.Conta}
    (h : alookup b.contas_por_numero k = some c) : b.updateConta k c = b := by
  rw [Original.Banco.updateConta, replaceFirst_self h]

theorem solidUpdateConta_self {b : Solid.Banco} {k : String} {c : Solid.Conta}
    (h : alookup b.contas_por_numero k = some c) : b.updateConta k c = b := by
  rw [Solid.Banco.updateConta, replaceFirst_self h]

end BancoBasicLemmas

section TransferAtomicity

/-- Any failing transfer in the original variant leaves the ledger state
untouched. -/
theorem origTransferir_error_unchanged {b : Original.Banco} {o d v : String} {e : Erro}
    (h : (b.transferir o d v).2 = .error e) : (b.transferir o d v).1 = b := by
  by_cases ho : o = d
  · simp [Original.Banco.transferir, ho]
  · cases hm : Original.to_money v with
    | error e0 => simp [Original.Banco.transferir, ho, hm]
    | ok val =>
      cases hbo : b.buscar_conta o with
      | error e0 => simp [Original.Banco.transferir, ho, hm, hbo]
      | ok co =>
        cases hbd : b.buscar_conta d with
        | error e0 => simp [Original.Banco.transferir, ho, hm, hbo, hbd]
        | ok cd =>
          cases hrs : (co.sacar val ("transferência para " ++ d)).2 with
          | error e0 =>
            have h1 := origSacar_error_state hrs
            have h2 := origUpdateConta_self (origBuscar_some hbo)
            simp [Original.Banco.transferir, ho, hm, hbo, hbd, hrs, h1, h2]
          | ok u =>
            have hv : 0 < val := (origSacar_ok_bounds hrs).1
            have hd := origDepositar_pos_ok
              (c := cd) (d := "transferência de " ++ o) hv
            rw [Original.Banco.transferir] at h
            simp only [ho, if_false, hm, hbo, hbd, hrs, hd] at h
            simp at h

/-- Any failing transfer in the refactored variant leaves the ledger state
untouched. -/
theorem solidTransferir_error_unchanged {b : Solid.Banco} {o d v : String} {e : Erro}
    (h : (b.transferir o d v).2 = .error e) : (b.transferir o d v).1 = b := by
  cases hbo : b.buscar_conta o with
  | error e0 => simp [Solid.Banco.transferir, hbo]
  | ok co =>
    cases hbd : b.buscar_conta d with
    | error e0 => simp [Solid.Banco.transferir, hbo, hbd]
    | ok cd =>
      cases hm : Solid.to_money v with
      | error e0 => simp [Solid.Banco.transferir, hbo, hbd, hm]
      | ok val =>
        by_cases hn : co.numero = cd.numero
        · have huo := solidUpdateConta_self (solidBuscar_some hbo)
          have hud := solidUpdateConta_self (solidBuscar_some hbd)
          simp [Solid.Banco.transferir, hbo, hbd, hm, Solid.Transferencia.executar,
            hn, huo, hud]
        · cases hrs : (co.sacar val ("Transferência para " ++ cd.numero)).2 with
          | error e0 =>
            have h1 := solidSacar_error_state hrs
            have huo := solidUpdateConta_self (solidBuscar_some hbo)
            have hud := solidUpdateConta_self (solidBuscar_some hbd)
            simp [Solid.Banco.transferir, hbo, hbd, hm, Solid.Transferencia.executar,
              hn, hrs, h1, huo, hud]
          | ok u =>
            have hv : 0 < val := (solidSacar_ok_bounds hrs).1
            have hd := solidDepositar_pos_ok
              (c := cd) (d := "Transferência de " ++ co.numero) hv
            rw [Solid.Banco.transferir] at h
            simp only [hbo, hbd, hm, Solid.Transferencia.executar, hn, if_false,
              hrs, hd] at h
            simp at h

end TransferAtomicity

section TransferCommit

theorem origTransferir_ok_spec {b : Original.Banco} {origem destino valor : String}
    {v : Int} {co cd : Original.Conta}
    (hbo : b.buscar_conta origem = .ok co) (hbd : b.buscar_conta destino = .ok cd)
    (hne : origem ≠ destino) (hm : Original.to_money valor = .ok v)
    (hv : 0 < v) (hs : v ≤ co.saldo) :
    b.transferir origem destino valor =
      ((b.updateConta origem
          { co with saldo := co.saldo - v,
                    historico := co.historico ++
                      [origSaqueT co.numero destino v, origTransT origem destino v] }).updateConta
        destino
          { cd with saldo := cd.saldo + v,
                    historico := cd.historico ++
                      [origDepT cd.numero origem v, origTransT origem destino v] },
        .ok ()) := by
  have hsac : co.sacar v ("transferência para " ++ destino) =
      ({ co with
          saldo := co.saldo - v
          historico := co.historico ++ [origSaqueT co.numero destino v] }, .ok ()) := by
    rw [Original.Conta.sacar]
    simp [not_le.mpr hv, not_lt.mpr hs, origSaqueT]
  have hdep : cd.depositar v ("transferência de " ++ origem) =
      ({ cd with
          saldo := cd.saldo + v
          historico := cd.historico ++ [origDepT cd.numero origem v] }, .ok ()) := by
    rw [Original.Conta.depositar]
    simp [not_le.mpr hv, origDepT]
  rw [Original.Banco.transferir]
  simp [hne, hm, hbo, hbd, hsac, hdep, origTransT]

theorem solidTransferir_ok_spec {b : Solid.Banco} {origem destino valor : String}
    {v : Int} {co cd : Solid.Conta}
    (hbo : b.buscar_conta origem = .ok co) (hbd : b.buscar_conta destino = .ok cd)
    (hnn : co.numero ≠ cd.numero) (hm : Solid.to_money valor = .ok v)
    (hv : 0 < v) (hs : v ≤ co.saldo) :
    b.transferir origem destino valor =
      ((b.updateConta origem
          { co with saldo := co.saldo - v,
                    transacoes := ⟨co.transacoes.historico ++
                      [solidSaqueT co.numero cd.numero v,
                       solidTransT co.numero cd.numero v]⟩ }).updateConta
        destino
          { cd with saldo := cd.saldo + v,
                    transacoes := ⟨cd.transacoes.historico ++
                      [solidDepT cd.numero co.numero v,
                       solidTransT co.numero cd.numero v]⟩ },
        .ok ()) := by
  have hsac : co.sacar v ("Transferência para " ++ cd.numero) =
      ({ co with
          saldo := co.saldo - v
          transacoes := ⟨co.transacoes.historico ++ [solidSaqueT co.numero cd.numero v]⟩ },
        .ok ()) := by
    rw [Solid.Conta.sacar]
    simp [not_le.mpr hv, not_lt.mpr hs, solidSaqueT, Solid.RegistroTransacoes.registrar]
  have hdep : cd.depositar v ("Transferência de " ++ co.numero) =
      ({ cd with
          saldo := cd.saldo + v
          transacoes := ⟨cd.transacoes.historico ++ [solidDepT cd.numero co.numero v]⟩ },
        .ok ()) := by
    rw [Solid.Conta.depositar]
    simp [not_le.mpr hv, solidDepT, Solid.RegistroTransacoes.registrar]
  rw [Solid.Banco.transferir]
  simp [hbo, hbd, hm, Solid.Transferencia.executar, hnn, hsac, hdep, solidTransT,
    Solid.RegistroTransacoes.registrar]

theorem origTransferir_ok_inv {b : Original.Banco} {o d v : String} {u : Unit}
    (h : (b.transferir o d v).2 = .ok u) :
    ∃ (vc : Int) (co cd : Original.Conta),
      o ≠ d ∧ Original.to_money v = .ok vc ∧
      b.buscar_conta o = .ok co ∧ b.buscar_conta d = .ok cd ∧
      0 < vc ∧ vc ≤ co.saldo := by
  by_cases ho : o = d
  · simp [Original.Banco.transferir, ho] at h
  · cases hm : Original.to_money v with
    | error e0 => simp [Original.Banco.transferir, ho, hm] at h
    | ok val =>
      cases hbo : b.buscar_conta o with
      | error e0 => simp [Original.Banco.transferir, ho, hm, hbo] at h
      | ok co =>
        cases hbd : b.buscar_conta d with
        | error e0 => simp [Original.Banco.transferir, ho, hm, hbo, hbd] at h
        | ok cd =>
          cases hrs : (co.sacar val ("transferência para " ++ d)).2 with
          | error e0 =>
            rw [Original.Banco.transferir] at h
            simp only [ho, if_false, hm, hbo, hbd, hrs] at h
            simp at h
          | ok u0 =>
            have hb := origSacar_ok_bounds hrs
            exact ⟨val, co, cd, ho, rfl, rfl, rfl, hb.1, hb.2⟩

theorem solidTransferir_ok_inv {b : Solid.Banco} {o d v : String} {u : Unit}
    (h : (b.transferir o d v).2 = .ok u) :
    ∃ (vc : Int) (co cd : Solid.Conta),
      Solid.to_money v = .ok vc ∧
      b.buscar_conta o = .ok co ∧ b.buscar_conta d = .ok cd ∧
      co.numero ≠ cd.numero ∧ 0 < vc ∧ vc ≤ co.saldo := by
  cases hbo : b.buscar_conta o with
  | error e0 => simp [Solid.Banco.transferir, hbo] at h
  | ok co =>
    cases hbd : b.buscar_conta d with
    | error e0 => simp [Solid.Banco.transferir, hbo, hbd] at h
    | ok cd =>
      cases hm : Solid.to_money v with
      | error e0 => simp [Solid.Banco.transferir, hbo, hbd, hm] at h
      | ok val =>
        by_cases hn : co.numero = cd.numero
        · simp [Solid.Banco.transferir, hbo, hbd, hm,
            Solid.Transferencia.executar, hn] at h
        · cases hrs : (co.sacar val ("Transferência para " ++ cd.numero)).2 with
          | error e0 =>
            rw [Solid.Banco.transferir] at h
            simp only [hbo, hbd, hm, Solid.Transferencia.executar, hn, if_false,
              hrs] at h
            simp at h
          | ok u0 =>
            have hb := solidSacar_ok_bounds hrs
            exact ⟨val, co, cd, rfl, rfl, rfl, hn, hb.1, hb.2⟩

end TransferCommit

section ClaimC2

/-- C2: a transfer is all-or-nothing in both variants.  Every failing
transfer (same account, unknown account, bad amount, insufficient funds)
leaves the ledger state exactly as it was; every successful transfer is the
full commit: both balances updated and all three log appends done (the
withdrawal and deposit legs plus the shared TRANSFERENCIA record in both
logs).  No other terminal outcome exists. -/
theorem claim_C2_transfer_all_or_nothing :
    (∀ (b : Original.Banco) (o d v : String) (e : Erro),
        (b.transferir o d v).2 = .error e → (b.transferir o d v).1 = b) ∧
    (∀ (b : Solid.Banco) (o d v : String) (e : Erro),
        (b.transferir o d v).2 = .error e → (b.transferir o d v).1 = b) ∧
    (∀ (b : Original.Banco) (o d v : String) (u : Unit),
        (b.transferir o d v).2 = .ok u →
        ∃ (vc : Int) (co cd : Original.Conta),
          o ≠ d ∧ Original.to_money v = .ok vc ∧
          b.buscar_conta o = .ok co ∧ b.buscar_conta d = .ok cd ∧
          0 < vc ∧ vc ≤ co.saldo ∧
          b.transferir o d v =
            ((b.updateConta o
                { co with
                    saldo := co.saldo - vc
                    historico := co.historico ++
                      [origSaqueT co.numero d vc, origTransT o d vc] }).updateConta d
                { cd with
                    saldo := cd.saldo + vc
                    historico := cd.historico ++
                      [origDepT cd.numero o vc, origTransT o d vc] },
              .ok ())) ∧
    (∀ (b : Solid.Banco) (o d v : String) (u : Unit),
        (b.transferir o d v).2 = .ok u →
        ∃ (vc : Int) (co cd : Solid.Conta),
          Solid.to_money v = .ok vc ∧
          b.buscar_conta o = .ok co ∧ b.buscar_conta d = .ok cd ∧
          co.numero ≠ cd.numero ∧ 0 < vc ∧ vc ≤ co.saldo ∧
          b.transferir o d v =
            ((b.updateConta o
                { co with
                    saldo := co.saldo - vc
                    transacoes := ⟨co.transacoes.historico ++
                      [solidSaqueT co.numero cd.numero vc,
                       solidTransT co.numero cd.numero vc]⟩ }).updateConta d
                { cd with
                    saldo := cd.saldo + vc
                    transacoes := ⟨cd.transacoes.historico ++
                      [solidDepT cd.numero co.numero vc,
                       solidTransT co.numero cd.numero vc]⟩ },
              .ok ())) := by
  refine ⟨?_, ?_, ?_, ?_⟩
  · intro b o d v e h
    exact origTransferir_error_unchanged h
  · intro b o d v e h
    exact solidTransferir_error_unchanged h
  · intro b o d v u h
    obtain ⟨vc, co, cd, ho, hm, hbo, hbd, hv, hs⟩ := origTransferir_ok_inv h
    exact ⟨vc, co, cd, ho, hm, hbo, hbd, hv, hs,
      origTransferir_ok_spec hbo hbd ho hm hv hs⟩
  · intro b o d v u h
    obtain ⟨vc, co, cd, hm, hbo, hbd, hn, hv, hs⟩ := solidTransferir_ok_inv h
    exact ⟨vc, co, cd, hm, hbo, hbd, hn, hv, hs,
      solidTransferir_ok_spec hbo hbd hn hm hv hs⟩

/-- Witness for C2 at a concrete ledger: a transfer to an unknown account
fails and changes nothing, in both variants. -/
theorem claim_C2_transfer_all_or_nothing_witness :
    (Original.Banco.transferir
        (runO [.criarCliente "Ana" "111", .abrirConta "111"]) "1001" "1002" "5").1 =
      runO [.criarCliente "Ana" "111", .abrirConta "111"] ∧
    (Solid.Banco.transferir
        (runS [.criarCliente "Ana" "111", .abrirConta "111"]) "1001" "1002" "5").1 =
      runS [.criarCliente "Ana" "111", .abrirConta "111"] :=
  ⟨claim_C2_transfer_all_or_nothing.1 _ "1001" "1002" "5"
      (.entidadeNaoEncontrada "conta não encontrada") (by rfl),
    claim_C2_transfer_all_or_nothing.2.1 _ "1001" "1002" "5"
      (.entidadeNaoEncontrada "conta não encontrada") (by rfl)⟩

end ClaimC2

section ClaimC3

/-- C3: a successful transfer of `v` from account `A` to a distinct account
`B` (with sufficient funds and `v > 0`) decreases `A` by exactly `v`,
increases `B` by exactly `v`, appends a SAQUE (withdrawal) record and the
TRANSFERENCIA record to `A`, and a DEPOSITO record and the same shared
TRANSFERENCIA record to `B` — three distinct records in total, the
TRANSFERENCIA one carrying origem = A, destino = B and amount `v`.  Holds
in both variants. -/
theorem claim_C3_transfer_success_effects :
    (∀ (b : Original.Banco) (A B valor : String) (v : Int)
        (co cd : Original.Conta),
      b.buscar_conta A = .ok co → b.buscar_conta B = .ok cd →
      co.numero = A → cd.numero = B → A ≠ B →
      Original.to_money valor = .ok v → 0 < v → v ≤ co.saldo →
      ∃ b2 : Original.Banco,
        b.transferir A B valor = (b2, .ok ()) ∧
        b2.buscar_conta A = .ok
          { co with
              saldo := co.saldo - v
              historico := co.historico ++ [origSaqueT A B v, origTransT A B v] } ∧
        b2.buscar_conta B = .ok
          { cd with
              saldo := cd.saldo + v
              historico := cd.historico ++ [origDepT B A v, origTransT A B v] }) ∧
    (∀ (b : Solid.Banco) (A B valor : String) (v : Int)
        (co cd : Solid.Conta),
      b.buscar_conta A = .ok co → b.buscar_conta B = .ok cd →
      co.numero = A → cd.numero = B → A ≠ B →
      Solid.to_money valor = .ok v → 0 < v → v ≤ co.saldo →
      ∃ b2 : Solid.Banco,
        b.transferir A B valor = (b2, .ok ()) ∧
        b2.buscar_conta A = .ok
          { co with
              saldo := co.saldo - v
              transacoes := ⟨co.transacoes.historico ++
                [solidSaqueT A B v, solidTransT A B v]⟩ } ∧
        b2.buscar_conta B = .ok
          { cd with
              saldo := cd.saldo + v
              transacoes := ⟨cd.transacoes.historico ++
                [solidDepT B A v, solidTransT A B v]⟩ }) := by
  constructor
  · intro b A B valor v co cd hbo hbd hno hnd hne hm hv hs
    have hspec := origTransferir_ok_spec hbo hbd hne hm hv hs
    rw [hno, hnd] at hspec
    refine ⟨_, hspec, ?_, ?_⟩
    · rw [Original.Banco.buscar_conta]
      show (match alookup (replaceFirst (replaceFirst b.contas_por_numero A _) B _) A with
        | none => Except.error (Erro.entidadeNaoEncontrada "conta não encontrada")
        | some conta => Except.ok conta) = _
      rw [alookup_replaceFirst_ne hne,
        alookup_replaceFirst_eq (by rw [origBuscar_some hbo]; rfl), hno]
    · rw [Original.Banco.buscar_conta]
      show (match alookup (replaceFirst (replaceFirst b.contas_por_numero A _) B _) B with
        | none => Except.error (Erro.entidadeNaoEncontrada "conta não encontrada")
        | some conta => Except.ok conta) = _
      rw [alookup_replaceFirst_eq (by
        rw [alookup_replaceFirst_ne (fun hc => hne hc.symm), origBuscar_some hbd]; rfl), hnd]
  · intro b A B valor v co cd hbo hbd hno hnd hne hm hv hs
    have hnn : co.numero ≠ cd.numero := by rw [hno, hnd]; exact hne
    have hspec := solidTransferir_ok_spec hbo hbd hnn hm hv hs
    rw [hno, hnd] at hspec
    refine ⟨_, hspec, ?_, ?_⟩
    · rw [Solid.Banco.buscar_conta]
      show (match alookup (replaceFirst (replaceFirst b.contas_por_numero A _) B _) A with
        | none => Except.error (Erro.entidadeNaoEncontrada "conta não encontrada")
        | some conta => Except.ok conta) = _
      rw [alookup_replaceFirst_ne hne,
        alookup_replaceFirst_eq (by rw [solidBuscar_some hbo]; rfl), hno]
    · rw [Solid.Banco.buscar_conta]
      show (match alookup (replaceFirst (replaceFirst b.contas_por_numero A _) B _) B with
        | none => Except.error (Erro.entidadeNaoEncontrada "conta não encontrada")
        | some conta => Except.ok conta) = _
      rw [alookup_replaceFirst_eq (by
        rw [alookup_replaceFirst_ne (fun hc => hne hc.symm), solidBuscar_some hbd]; rfl), hnd]

end ClaimC3

/-- Witness for C3: the spec scenario — A holds 2500.00, B holds 1500.00,
A transfers 300.00 to B; afterwards A holds 2200.00 and B holds 1800.00 and
both logs carry the shared TRANSFERENCIA record with source A, destination
B, amount 300.00. -/
theorem claim_C3_transfer_success_effects_witness :
    ∃ b2 : Original.Banco,
      (runO [.criarCliente "Ana" "111", .criarCliente "Bia" "222",
             .abrirConta "111", .abrirConta "222",
             .depositar "1001" "2500", .depositar "1002" "1500"]).transferir
          "1001" "1002" "300" = (b2, .ok ()) ∧
      b2.buscar_conta "1001" = .ok
        { numero := "1001", cliente := ⟨1, "Ana", "111"⟩, saldo := 220000,
          historico := [⟨"DEPOSITO", 250000, "depósito", "", "1001"⟩,
            ⟨"SAQUE", 30000, "transferência para 1002", "1001", ""⟩,
            ⟨"TRANSFERENCIA", 30000, "transferência", "1001", "1002"⟩] } ∧
      b2.buscar_conta "1002" = .ok
        { numero := "1002", cliente := ⟨2, "Bia", "222"⟩, saldo := 180000,
          historico := [⟨"DEPOSITO", 150000, "depósito", "", "1002"⟩,
            ⟨"DEPOSITO", 30000, "transferência de 1001", "", "1002"⟩,
            ⟨"TRANSFERENCIA", 30000, "transferência", "1001", "1002"⟩] } :=
  claim_C3_transfer_success_effects.1 _ "1001" "1002" "300" 30000
    { numero := "1001", cliente := ⟨1, "Ana", "111"⟩, saldo := 250000,
      historico := [⟨"DEPOSITO", 250000, "depósito", "", "1001"⟩] }
    { numero := "1002", cliente := ⟨2, "Bia", "222"⟩, saldo := 150000,
      historico := [⟨"DEPOSITO", 150000, "depósito", "", "1002"⟩] }
    (by rfl) (by rfl) (by rfl) (by rfl) (by decide) (by rfl) (by decide) (by decide)

section ClaimC7

/-- C7: in both variants, depositing a non-positive amount fails with
`ValorInvalido` and withdrawing more than the (non-negative) balance fails
with `SaldoInsuficiente`; in each failure the account — balance and log —
is returned unchanged, because validation precedes any mutation. -/
theorem claim_C7_deposit_withdraw_guards :
    (∀ (c : Original.Conta) (v : Int) (d : String), v ≤ 0 →
        c.depositar v d = (c, .error (.valorInvalido "valor deve ser positivo"))) ∧
    (∀ (c : Original.Conta) (v : Int) (d : String), 0 ≤ c.saldo → c.saldo < v →
        c.sacar v d = (c, .error (.saldoInsuficiente "saldo insuficiente"))) ∧
    (∀ (c : Solid.Conta) (v : Int) (d : String), v ≤ 0 →
        c.depositar v d = (c, .error (.valorInvalido "valor deve ser positivo"))) ∧
    (∀ (c : Solid.Conta) (v : Int) (d : String), 0 ≤ c.saldo → c.saldo < v →
        c.sacar v d = (c, .error (.saldoInsuficiente "saldo insuficiente"))) := by
  refine ⟨?_, ?_, ?_, ?_⟩
  · intro c v d hv
    rw [Original.Conta.depositar]
    simp [hv]
  · intro c v d h0 hlt
    have hv : ¬ v ≤ 0 := not_le.mpr (lt_of_le_of_lt h0 hlt)
    rw [Original.Conta.sacar]
    simp [hv, hlt]
  · intro c v d hv
    rw [Solid.Conta.depositar]
    simp [hv]
  · intro c v d h0 hlt
    have hv : ¬ v ≤ 0 := not_le.mpr (lt_of_le_of_lt h0 hlt)
    rw [Solid.Conta.sacar]
    simp [hv, hlt]

/-- Witness for C7 at a concrete account with balance 700.00: a deposit of
0 and a withdrawal of 900.00 both fail and leave the account unchanged. -/
theorem claim_C7_deposit_withdraw_guards_witness :
    Original.Conta.depositar
        { numero := "1", cliente := ⟨1, "Ana", "111"⟩, saldo := 70000,
          historico := [] } 0 "x" =
      ({ numero := "1", cliente := ⟨1, "Ana", "111"⟩, saldo := 70000,
          historico := [] }, .error (.valorInvalido "valor deve ser positivo")) ∧
    Original.Conta.sacar
        { numero := "1", cliente := ⟨1, "Ana", "111"⟩, saldo := 70000,
          historico := [] } 90000 "x" =
      ({ numero := "1", cliente := ⟨1, "Ana", "111"⟩, saldo := 70000,
          historico := [] }, .error (.saldoInsuficiente "saldo insuficiente")) ∧
    Solid.Conta.depositar
        { numero := "1", cliente := ⟨1, "Ana", "111"⟩, saldo := 70000,
          transacoes := ⟨[]⟩ } 0 "x" =
      ({ numero := "1", cliente := ⟨1, "Ana", "111"⟩, saldo := 70000,
          transacoes := ⟨[]⟩ }, .error (.valorInvalido "valor deve ser positivo")) ∧
    Solid.Conta.sacar
        { numero := "1", cliente := ⟨1, "Ana", "111"⟩, saldo := 70000,
          transacoes := ⟨[]⟩ } 90000 "x" =
      ({ numero := "1", cliente := ⟨1, "Ana", "111"⟩, saldo := 70000,
          transacoes := ⟨[]⟩ }, .error (.saldoInsuficiente "saldo insuficiente")) :=
  ⟨claim_C7_deposit_withdraw_guards.1 _ 0 "x" (by decide),
   claim_C7_deposit_withdraw_guards.2.1 _ 90000 "x" (by decide) (by decide),
   claim_C7_deposit_withdraw_guards.2.2.1 _ 0 "x" (by decide),
   claim_C7_deposit_withdraw_guards.2.2.2 _ 90000 "x" (by decide) (by decide)⟩

end ClaimC7

section MoreLemmas

theorem alookup_append_none {α : Type} {l : List (String × α)} {k : String}
    (h : alookup l k = none) (v : α) : alookup (l ++ [(k, v)]) k = some v := by
  induction l with
  | nil => simp [alookup]
  | cons p t ih =>
    rw [alookup] at h
    by_cases hp : p.1 = k
    · rw [if_pos hp] at h; cases h
    · rw [if_neg hp] at h
      rw [List.cons_append, alookup, if_neg hp]
      exact ih h

theorem solid_to_money_error_shape {s : String} {e : Erro}
    (h : Solid.to_money s = .error e) : e = .valorInvalido "valor inválido" := by
  cases hp : parseDecimal s with
  | none =>
    have hv : Solid.to_money s = .error (.valorInvalido "valor inválido") := by
      rw [Solid.to_money, hp]
    rw [hv] at h
    exact (Except.error.inj h).symm
  | some pd =>
    cases pd with
    | special =>
      have hv : Solid.to_money s = .error (.valorInvalido "valor inválido") := by
        rw [Solid.to_money, hp]
      rw [hv] at h
      exact (Except.error.inj h).symm
    | finite m ex =>
      cases hq : quantizeCents m ex with
      | none =>
        have hv : Solid.to_money s = .error (.valorInvalido "valor inválido") := by
          rw [Solid.to_money, hp]
          simp [hq]
        rw [hv] at h
        exact (Except.error.inj h).symm
      | some c =>
        have hv : Solid.to_money s = .ok c := by
          rw [Solid.to_money, hp]
          simp [hq]
        rw [hv] at h
        cases h

theorem to_money_rel (s : String) :
    (∃ c, Original.to_money s = .ok c ∧ Solid.to_money s = .ok c) ∨
    ((∃ e1, Original.to_money s = .error e1) ∧
     (∃ e2, Solid.to_money s = .error e2)) := by
  cases hp : parseDecimal s with
  | none =>
    refine Or.inr ⟨⟨.valorInvalido "valor inválido", by rw [Original.to_money, hp]⟩,
      ⟨.valorInvalido "valor inválido", by rw [Solid.to_money, hp]⟩⟩
  | some pd =>
    cases pd with
    | special =>
      refine Or.inr ⟨⟨.decimalInvalidOperation, by rw [Original.to_money, hp]⟩,
        ⟨.valorInvalido "valor inválido", by rw [Solid.to_money, hp]⟩⟩
    | finite m ex =>
      cases hq : quantizeCents m ex with
      | none =>
        refine Or.inr ⟨⟨.decimalInvalidOperation,
            by rw [Original.to_money, hp]; simp [hq]⟩,
          ⟨.valorInvalido "valor inválido", by rw [Solid.to_money, hp]; simp [hq]⟩⟩
      | some c =>
        refine Or.inl ⟨c, by rw [Original.to_money, hp]; simp [hq],
          by rw [Solid.to_money, hp]; simp [hq]⟩

end MoreLemmas

section ClaimC6

/-- C6: money normalization sends "10", "10.00" and "10.001" all to exactly
10.00 (1000 cents, the last by half-even rounding) in both variants, and
every unparseable input fails with the `ValorInvalido` (InvalidAmount) kind
instead of crashing.  Determinism is inherent: `_to_money` is modelled as a
pure function of its input. -/
theorem claim_C6_money_normalization :
    Original.to_money "10" = .ok 1000 ∧ Original.to_money "10.00" = .ok 1000 ∧
    Original.to_money "10.001" = .ok 1000 ∧
    Solid.to_money "10" = .ok 1000 ∧ Solid.to_money "10.00" = .ok 1000 ∧
    Solid.to_money "10.001" = .ok 1000 ∧
    (∀ st : String, parseDecimal st = none →
      Original.to_money st = .error (.valorInvalido "valor inválido") ∧
      Solid.to_money st = .error (.valorInvalido "valor inválido")) := by
  refine ⟨by rfl, by rfl, by rfl, by rfl, by rfl, by rfl, ?_⟩
  intro st h
  exact ⟨by rw [Original.to_money, h], by rw [Solid.to_money, h]⟩

/-- Witness for C6 at the unparseable input "abc". -/
theorem claim_C6_money_normalization_witness :
    Original.to_money "abc" = .error (.valorInvalido "valor inválido") ∧
    Solid.to_money "abc" = .error (.valorInvalido "valor inválido") :=
  claim_C6_money_normalization.2.2.2.2.2.2 "abc" (by rfl)

end ClaimC6

section ClaimC8

/-- C8: customer registration is idempotent by cpf in both variants — the
second call returns the very Customer the first call produced and leaves
the whole bank state (registry and id counter) untouched; a fresh
sequential id is assigned only when the cpf was unknown. -/
theorem claim_C8_idempotent_registration :
    (∀ (b : Original.Banco) (nome1 cpf nome2 : String),
      ((b.criar_cliente nome1 cpf).2.criar_cliente nome2 cpf).1 =
        (b.criar_cliente nome1 cpf).1 ∧
      ((b.criar_cliente nome1 cpf).2.criar_cliente nome2 cpf).2 =
        (b.criar_cliente nome1 cpf).2 ∧
      (alookup b.clientes_por_cpf cpf = none →
        (b.criar_cliente nome1 cpf).1.id = b.seq_cliente ∧
        (b.criar_cliente nome1 cpf).2.seq_cliente = b.seq_cliente + 1)) ∧
    (∀ (b : Solid.Banco) (nome1 cpf nome2 : String),
      ((b.criar_cliente nome1 cpf).2.criar_cliente nome2 cpf).1 =
        (b.criar_cliente nome1 cpf).1 ∧
      ((b.criar_cliente nome1 cpf).2.criar_cliente nome2 cpf).2 =
        (b.criar_cliente nome1 cpf).2 ∧
      (alookup b.clientes_por_cpf cpf = none →
        (b.criar_cliente nome1 cpf).1.id = b.seq_cliente ∧
        (b.criar_cliente nome1 cpf).2.seq_cliente = b.seq_cliente + 1)) := by
  constructor
  · intro b nome1 cpf nome2
    cases hl : alookup b.clientes_por_cpf cpf with
    | some c =>
      simp [Original.Banco.criar_cliente, hl]
    | none =>
      have h2 : alookup (dictSet b.clientes_por_cpf cpf
          { id := b.seq_cliente, nome := nome1, cpf := cpf }) cpf =
          some { id := b.seq_cliente, nome := nome1, cpf := cpf } := by
        rw [dictSet, hl]
        exact alookup_append_none hl _
      simp [Original.Banco.criar_cliente, hl, h2]
  · intro b nome1 cpf nome2
    cases hl : alookup b.clientes_por_cpf cpf with
    | some c =>
      simp [Solid.Banco.criar_cliente, hl]
    | none =>
      have h2 : alookup (dictSet b.clientes_por_cpf cpf
          { id := b.seq_cliente, nome := nome1, cpf := cpf }) cpf =
          some { id := b.seq_cliente, nome := nome1, cpf := cpf } := by
        rw [dictSet, hl]
        exact alookup_append_none hl _
      simp [Solid.Banco.criar_cliente, hl, h2]

/-- Witness for C8: registering "Ana" twice on fresh ledgers returns the
same Customer, does not advance the counter, and the first call assigned
id 1. -/
theorem claim_C8_idempotent_registration_witness :
    (((Original.Banco.init.criar_cliente "Ana" "111").2.criar_cliente "Ana" "111").1 =
        (Original.Banco.init.criar_cliente "Ana" "111").1 ∧
      ((Original.Banco.init.criar_cliente "Ana" "111").2.criar_cliente "Ana" "111").2 =
        (Original.Banco.init.criar_cliente "Ana" "111").2 ∧
      ((Original.Banco.init.criar_cliente "Ana" "111").1.id = 1 ∧
        (Original.Banco.init.criar_cliente "Ana" "111").2.seq_cliente = 1 + 1)) ∧
    (((Solid.Banco.init.criar_cliente "Ana" "111").2.criar_cliente "Ana" "111").1 =
        (Solid.Banco.init.criar_cliente "Ana" "111").1 ∧
      ((Solid.Banco.init.criar_cliente "Ana" "111").2.criar_cliente "Ana" "111").2 =
        (Solid.Banco.init.criar_cliente "Ana" "111").2 ∧
      ((Solid.Banco.init.criar_cliente "Ana" "111").1.id = 1 ∧
        (Solid.Banco.init.criar_cliente "Ana" "111").2.seq_cliente = 1 + 1)) :=
  ⟨⟨(claim_C8_idempotent_registration.1 Original.Banco.init "Ana" "111" "Ana").1,
    (claim_C8_idempotent_registration.1 Original.Banco.init "Ana" "111" "Ana").2.1,
    (claim_C8_idempotent_registration.1 Original.Banco.init "Ana" "111" "Ana").2.2 (by rfl)⟩,
   ⟨(claim_C8_idempotent_registration.2 Solid.Banco.init "Ana" "111" "Ana").1,
    (claim_C8_idempotent_registration.2 Solid.Banco.init "Ana" "111" "Ana").2.1,
    (claim_C8_idempotent_registration.2 Solid.Banco.init "Ana" "111" "Ana").2.2 (by rfl)⟩⟩

end ClaimC8

section ClaimC10

/-- C10: the original variant compares the raw account-number strings
before any lookup, so a self-transfer — even on an unregistered number —
always raises `ValorInvalido "contas iguais"` and never NotFound; the
refactored variant resolves accounts first, so a self-transfer on an
unregistered number raises `EntidadeNaoEncontrada` instead. -/
theorem claim_C10_self_transfer_validation_order :
    (∀ (b : Original.Banco) (n valor : String),
        b.transferir n n valor = (b, .error (.valorInvalido "contas iguais"))) ∧
    (∀ (b : Solid.Banco) (n valor : String),
        alookup b.contas_por_numero n = none →
        b.transferir n n valor =
          (b, .error (.entidadeNaoEncontrada "conta não encontrada"))) := by
  constructor
  · intro b n valor
    rw [Original.Banco.transferir]
    simp
  · intro b n valor h
    simp [Solid.Banco.transferir, Solid.Banco.buscar_conta, h]

/-- Witness for C10: on a fresh refactored-variant ledger, a self-transfer
at the unregistered number "7" is NotFound. -/
theorem claim_C10_self_transfer_validation_order_witness :
    Solid.Banco.init.transferir "7" "7" "5" =
      (Solid.Banco.init, .error (.entidadeNaoEncontrada "conta não encontrada")) :=
  claim_C10_self_transfer_validation_order.2 Solid.Banco.init "7" "5" (by rfl)

end ClaimC10

section ClaimC4

/-- C4 counterexample: transfer-to-self does not fail with a dedicated
InvalidOperation kind.  The exception hierarchy has only `ValorInvalido`,
`SaldoInsuficiente` and `EntidadeNaoEncontrada`; a self-transfer on a
funded account raises `ValorInvalido` — the very class the spec maps to
InvalidAmount — and in the refactored variant a self-transfer on an
unregistered number raises `EntidadeNaoEncontrada`, not any
InvalidOperation. -/
theorem claim_C4_self_transfer_kind_counterexample :
    (Original.Banco.transferir
        (runO [.criarCliente "Ana" "111", .abrirConta "111",
               .depositar "1001" "100"]) "1001" "1001" "10").2 =
      .error (.valorInvalido "contas iguais") ∧
    (Solid.Banco.transferir Solid.Banco.init "7" "7" "10").2 =
      .error (.entidadeNaoEncontrada "conta não encontrada") :=
  ⟨by rfl, by rfl⟩

/-- C4 amended: a self-transfer never mutates and fails as follows.  In the
original variant it always (any number, registered or not, any balance)
raises `ValorInvalido "contas iguais"`.  In the refactored variant it
raises a `ValorInvalido` error when the account exists (either the amount
error or "contas iguais"), and `EntidadeNaoEncontrada` when it does not.
No dedicated InvalidOperation kind exists; the self-transfer error shares
the `ValorInvalido` class with amount errors. -/
theorem claim_C4_self_transfer_amended :
    (∀ (b : Original.Banco) (n valor : String),
        b.transferir n n valor = (b, .error (.valorInvalido "contas iguais"))) ∧
    (∀ (b : Solid.Banco) (n valor : String) (co : Solid.Conta),
        b.buscar_conta n = .ok co →
        ∃ msg, b.transferir n n valor = (b, .error (.valorInvalido msg))) ∧
    (∀ (b : Solid.Banco) (n valor : String),
        alookup b.contas_por_numero n = none →
        b.transferir n n valor =
          (b, .error (.entidadeNaoEncontrada "conta não encontrada"))) := by
  refine ⟨?_, ?_, ?_⟩
  · intro b n valor
    rw [Original.Banco.transferir]
    simp
  · intro b n valor co hbo
    cases hm : Solid.to_money valor with
    | error e =>
      have he := solid_to_money_error_shape hm
      refine ⟨"valor inválido", ?_⟩
      rw [Solid.Banco.transferir, hbo, hm, he]
    | ok v =>
      refine ⟨"contas iguais", ?_⟩
      have hu : b.updateConta n co = b := solidUpdateConta_self (solidBuscar_some hbo)
      rw [Solid.Banco.transferir, hbo, hm]
      simp [Solid.Transferencia.executar, hu]
  · intro b n valor h
    simp [Solid.Banco.transferir, Solid.Banco.buscar_conta, h]

/-- Witness for C4 (amended) on concrete ledgers: a registered self-transfer
in the refactored variant fails with `ValorInvalido`, an unregistered one
with `EntidadeNaoEncontrada`. -/
theorem claim_C4_self_transfer_amended_witness :
    (∃ msg, Solid.Banco.transferir
        (runS [.criarCliente "Ana" "111", .abrirConta "111",
               .depositar "1001" "100"]) "1001" "1001" "10" =
      (runS [.criarCliente "Ana" "111", .abrirConta "111",
             .depositar "1001" "100"], .error (.valorInvalido msg))) ∧
    Solid.Banco.init.transferir "7" "7" "10" =
      (Solid.Banco.init, .error (.entidadeNaoEncontrada "conta não encontrada")) :=
  ⟨claim_C4_self_transfer_amended.2.1 _ "1001" "10"
      { numero := "1001", cliente := ⟨1, "Ana", "111"⟩, saldo := 10000,
        transacoes := ⟨[⟨"DEPOSITO", 10000, "Depósito", "", "1001"⟩]⟩ } (by rfl),
   claim_C4_self_transfer_amended.2.2 Solid.Banco.init "7" "10" (by rfl)⟩

end ClaimC4

section DepositWithdrawSpec

theorem origDepositar_ok_spec {b : Original.Banco} {n v : String} {u : Unit}
    (h : (b.depositar n v).2 = .ok u) :
    ∃ (vc : Int) (co : Original.Conta),
      b.buscar_conta n = .ok co ∧ Original.to_money v = .ok vc ∧ 0 < vc ∧
      (b.depositar n v).1 = b.updateConta n
        { co with
            saldo := co.saldo + vc
            historico := co.historico ++ [bankDepT co.numero "depósito" vc] } := by
  cases hbo : b.buscar_conta n with
  | error e => simp [Original.Banco.depositar, hbo] at h
  | ok co =>
    cases hm : Original.to_money v with
    | error e => simp [Original.Banco.depositar, hbo, hm] at h
    | ok vc =>
      by_cases hv : vc ≤ 0
      · rw [Original.Banco.depositar] at h
        simp only [hbo, hm] at h
        rw [Original.Conta.depositar] at h
        simp [hv] at h
      · refine ⟨vc, co, rfl, rfl, not_le.mp hv, ?_⟩
        rw [Original.Banco.depositar]
        simp only [hbo, hm]
        rw [Original.Conta.depositar]
        simp [hv, bankDepT]

theorem origSacar_ok_spec {b : Original.Banco} {n v : String} {u : Unit}
    (h : (b.sacar n v).2 = .ok u) :
    ∃ (vc : Int) (co : Original.Conta),
      b.buscar_conta n = .ok co ∧ Original.to_money v = .ok vc ∧
      0 < vc ∧ vc ≤ co.saldo ∧
      (b.sacar n v).1 = b.updateConta n
        { co with
            saldo := co.saldo - vc
            historico := co.historico ++ [bankSaqueT co.numero "saque" vc] } := by
  cases hbo : b.buscar_conta n with
  | error e => simp [Original.Banco.sacar, hbo] at h
  | ok co =>
    cases hm : Original.to_money v with
    | error e => simp [Original.Banco.sacar, hbo, hm] at h
    | ok vc =>
      by_cases hv : vc ≤ 0
      · rw [Original.Banco.sacar] at h
        simp only [hbo, hm] at h
        rw [Original.Conta.sacar] at h
        simp [hv] at h
      · by_cases hs : co.saldo < vc
        · rw [Original.Banco.sacar] at h
          simp only [hbo, hm] at h
          rw [Original.Conta.sacar] at h
          simp [hv, hs] at h
        · refine ⟨vc, co, rfl, rfl, not_le.mp hv, not_lt.mp hs, ?_⟩
          rw [Original.Banco.sacar]
          simp only [hbo, hm]
          rw [Original.Conta.sacar]
          simp [hv, hs, bankSaqueT]

theorem solidDepositar_ok_spec {b : Solid.Banco} {n v : String} {u : Unit}
    (h : (b.depositar n v).2 = .ok u) :
    ∃ (vc : Int) (co : Solid.Conta),
      b.buscar_conta n = .ok co ∧ Solid.to_money v = .ok vc ∧ 0 < vc ∧
      (b.depositar n v).1 = b.updateConta n
        { co with
            saldo := co.saldo + vc
            transacoes := ⟨co.transacoes.historico ++
              [bankDepT co.numero "Depósito" vc]⟩ } := by
  cases hbo : b.buscar_conta n with
  | error e => simp [Solid.Banco.depositar, hbo] at h
  | ok co =>
    cases hm : Solid.to_money v with
    | error e => simp [Solid.Banco.depositar, hbo, hm] at h
    | ok vc =>
      by_cases hv : vc ≤ 0
      · rw [Solid.Banco.depositar] at h
        simp only [hbo, hm] at h
        rw [Solid.Conta.depositar] at h
        simp [hv] at h
      · refine ⟨vc, co, rfl, rfl, not_le.mp hv, ?_⟩
        rw [Solid.Banco.depositar]
        simp only [hbo, hm]
        rw [Solid.Conta.depositar]
        simp [hv, bankDepT, Solid.RegistroTransacoes.registrar]

end DepositWithdrawSpec

section ExtratoLemmas

theorem origExtrato_of_buscar {b : Original.Banco} {n : String} {co : Original.Conta}
    (h : b.buscar_conta n = .ok co) : b.extrato n = .ok co.historico := by
  rw [Original.Banco.extrato, h]

theorem solidExtrato_of_buscar {b : Solid.Banco} {n : String} {co : Solid.Conta}
    (h : b.buscar_conta n = .ok co) : b.extrato n = .ok co.transacoes.historico := by
  rw [Solid.Banco.extrato, h]
  rfl

theorem origExtrato_update_self {b : Original.Banco} {k : String} (c : Original.Conta)
    (h : (alookup b.contas_por_numero k).isSome) :
    (b.updateConta k c).extrato k = .ok c.historico := by
  simp [Original.Banco.extrato, Original.Banco.buscar_conta, Original.Banco.updateConta,
    alookup_replaceFirst_eq h]

theorem solidExtrato_update_self {b : Solid.Banco} {k : String} (c : Solid.Conta)
    (h : (alookup b.contas_por_numero k).isSome) :
    (b.updateConta k c).extrato k = .ok c.transacoes.historico := by
  simp [Solid.Banco.extrato, Solid.Banco.buscar_conta, Solid.Banco.updateConta,
    alookup_replaceFirst_eq h, Solid.RegistroTransacoes.listar]

theorem origExtrato_double_update {b : Original.Banco} {A B : String}
    (cA cB : Original.Conta) (hne : A ≠ B)
    (hA : (alookup b.contas_por_numero A).isSome)
    (hB : (alookup b.contas_por_numero B).isSome) :
    ((b.updateConta A cA).updateConta B cB).extrato A = .ok cA.historico ∧
    ((b.updateConta A cA).updateConta B cB).extrato B = .ok cB.historico := by
  constructor
  · simp [Original.Banco.extrato, Original.Banco.buscar_conta,
      Original.Banco.updateConta, alookup_replaceFirst_ne hne,
      alookup_replaceFirst_eq hA]
  · have hB2 : (alookup (replaceFirst b.contas_por_numero A cA) B).isSome := by
      rw [alookup_replaceFirst_ne (fun hc => hne hc.symm)]
      exact hB
    simp [Original.Banco.extrato, Original.Banco.buscar_conta,
      Original.Banco.updateConta, alookup_replaceFirst_eq hB2]

end ExtratoLemmas

section ClaimC9

/-- C9: statements reflect exactly the insertion (commit) order, and what a
statement returns is a snapshot.  Every committing operation appends its
records at the end of the previously returned statement; `extrato`/`listar`
are read-only (pure) so a repeated call on an unchanged account returns the
same entries, and the `list(...)` copy in the source means a caller cannot
reach back into the log (in this embedding, returned sequences are
immutable values). -/
theorem claim_C9_statement_insertion_order :
    (∀ (b : Original.Banco) (n v : String) (u : Unit),
      (b.depositar n v).2 = .ok u →
      ∃ (vc : Int) (co : Original.Conta),
        b.extrato n = .ok co.historico ∧
        (b.depositar n v).1.extrato n =
          .ok (co.historico ++ [bankDepT co.numero "depósito" vc])) ∧
    (∀ (b : Original.Banco) (n v : String) (u : Unit),
      (b.sacar n v).2 = .ok u →
      ∃ (vc : Int) (co : Original.Conta),
        b.extrato n = .ok co.historico ∧
        (b.sacar n v).1.extrato n =
          .ok (co.historico ++ [bankSaqueT co.numero "saque" vc])) ∧
    (∀ (b : Original.Banco) (A B valor : String) (u : Unit),
      (b.transferir A B valor).2 = .ok u →
      ∃ (vc : Int) (co cd : Original.Conta),
        b.extrato A = .ok co.historico ∧ b.extrato B = .ok cd.historico ∧
        (b.transferir A B valor).1.extrato A =
          .ok (co.historico ++ [origSaqueT co.numero B vc, origTransT A B vc]) ∧
        (b.transferir A B valor).1.extrato B =
          .ok (cd.historico ++ [origDepT cd.numero A vc, origTransT A B vc])) ∧
    (∀ r : Solid.RegistroTransacoes, r.listar = r.historico) ∧
    (∀ (b : Solid.Banco) (n v : String) (u : Unit),
      (b.depositar n v).2 = .ok u →
      ∃ (vc : Int) (co : Solid.Conta),
        b.extrato n = .ok co.transacoes.historico ∧
        (b.depositar n v).1.extrato n =
          .ok (co.transacoes.historico ++ [bankDepT co.numero "Depósito" vc])) := by
  refine ⟨?_, ?_, ?_, ?_, ?_⟩
  · intro b n v u h
    obtain ⟨vc, co, hbo, hm, hv, hst⟩ := origDepositar_ok_spec h
    refine ⟨vc, co, origExtrato_of_buscar hbo, ?_⟩
    rw [hst]
    exact origExtrato_update_self _ (by rw [origBuscar_some hbo]; rfl)
  · intro b n v u h
    obtain ⟨vc, co, hbo, hm, hv, hs, hst⟩ := origSacar_ok_spec h
    refine ⟨vc, co, origExtrato_of_buscar hbo, ?_⟩
    rw [hst]
    exact origExtrato_update_self _ (by rw [origBuscar_some hbo]; rfl)
  · intro b A B valor u h
    obtain ⟨vc, co, cd, hne, hm, hbo, hbd, hv, hs⟩ := origTransferir_ok_inv h
    have hspec := origTransferir_ok_spec hbo hbd hne hm hv hs
    have hA : (alookup b.contas_por_numero A).isSome := by
      rw [origBuscar_some hbo]; rfl
    have hB : (alookup b.contas_por_numero B).isSome := by
      rw [origBuscar_some hbd]; rfl
    have hext := origExtrato_double_update
      (b := b) (A := A) (B := B)
      { co with
          saldo := co.saldo - vc
          historico := co.historico ++ [origSaqueT co.numero B vc, origTransT A B vc] }
      { cd with
          saldo := cd.saldo + vc
          historico := cd.historico ++ [origDepT cd.numero A vc, origTransT A B vc] }
      hne hA hB
    refine ⟨vc, co, cd, origExtrato_of_buscar hbo, origExtrato_of_buscar hbd, ?_, ?_⟩
    · rw [hspec]
      exact hext.1
    · rw [hspec]
      exact hext.2
  · intro r
    rfl
  · intro b n v u h
    obtain ⟨vc, co, hbo, hm, hv, hst⟩ := solidDepositar_ok_spec h
    refine ⟨vc, co, solidExtrato_of_buscar hbo, ?_⟩
    rw [hst]
    exact solidExtrato_update_self _ (by rw [solidBuscar_some hbo]; rfl)

/-- Witness for C9: on a concrete ledger a successful deposit appends its
DEPOSITO record at the end of the statement. -/
theorem claim_C9_statement_insertion_order_witness :
    ∃ (vc : Int) (co : Original.Conta),
      (runO [.criarCliente "Ana" "111", .abrirConta "111",
             .depositar "1001" "7"]).extrato "1001" = .ok co.historico ∧
      ((runO [.criarCliente "Ana" "111", .abrirConta "111",
              .depositar "1001" "7"]).depositar "1001" "3").1.extrato "1001" =
        .ok (co.historico ++ [bankDepT co.numero "depósito" vc]) :=
  claim_C9_statement_insertion_order.1 _ "1001" "3" () (by rfl)

end ClaimC9

section ClaimC1Lemmas

theorem signedSum_append (l1 l2 : List Transacao) :
    signedSum (l1 ++ l2) = signedSum l1 + signedSum l2 := by
  simp [signedSum]

theorem contasOk_update {b : Original.Banco} {k : String} {c : Original.Conta}
    (hb : contasLedgerOk b) (hc : contaLedgerOk c) :
    contasLedgerOk (b.updateConta k c) := by
  intro p hp
  rcases mem_replaceFirst hp with h1 | h2
  · rw [h1]
    exact hc
  · exact hb p h2

theorem origConta_dep_pres {c : Original.Conta} {v : Int} {d : String}
    (h : contaLedgerOk c) : contaLedgerOk (c.depositar v d).1 := by
  rw [Original.Conta.depositar]
  by_cases hv : v ≤ 0
  · simpa [hv] using h
  · simp only [hv, if_false]
    constructor
    · show c.saldo + v = signedSum (c.historico ++ [_])
      rw [signedSum_append]
      have h1 : signedSum [⟨"DEPOSITO", v, d, "", c.numero⟩] = v := by
        simp [signedSum, signedAmount]
      rw [h1, h.1]
    · show 0 ≤ c.saldo + v
      have := h.2
      have := not_le.mp hv
      omega

theorem origConta_sac_pres {c : Original.Conta} {v : Int} {d : String}
    (h : contaLedgerOk c) : contaLedgerOk (c.sacar v d).1 := by
  rw [Original.Conta.sacar]
  by_cases hv : v ≤ 0
  · simpa [hv] using h
  · by_cases hs : c.saldo < v
    · simpa [hv, hs] using h
    · simp only [hv, hs, if_false]
      constructor
      · show c.saldo - v = signedSum (c.historico ++ [_])
        rw [signedSum_append]
        have h1 : signedSum [⟨"SAQUE", v, d, c.numero, ""⟩] = -v := by
          simp [signedSum, signedAmount]
        rw [h1, h.1]
        ring
      · show 0 ≤ c.saldo - v
        have := not_lt.mp hs
        omega

theorem contaOk_append_transt {c : Original.Conta} {t : Transacao}
    (h : contaLedgerOk c) (ht : signedAmount t = 0) :
    contaLedgerOk { c with historico := c.historico ++ [t] } := by
  constructor
  · show c.saldo = signedSum (c.historico ++ [t])
    rw [signedSum_append]
    have h1 : signedSum [t] = 0 := by simp [signedSum, ht]
    rw [h1, h.1]
    ring
  · exact h.2

theorem contasOk_criar {b : Original.Banco} (hb : contasLedgerOk b)
    (nome cpf : String) : contasLedgerOk (b.criar_cliente nome cpf).2 := by
  rw [Original.Banco.criar_cliente]
  cases hl : alookup b.clientes_por_cpf cpf with
  | some c => exact hb
  | none => exact hb

theorem contasOk_abrir {b : Original.Banco} (hb : contasLedgerOk b)
    (cpf : String) : contasLedgerOk (b.abrir_conta cpf).1 := by
  rw [Original.Banco.abrir_conta]
  cases hl : alookup b.clientes_por_cpf cpf with
  | none => exact hb
  | some cliente =>
    intro p hp
    rcases mem_dictSet hp with h1 | h2
    · rw [h1]
      exact ⟨rfl, le_refl 0⟩
    · exact hb p h2

theorem contasOk_dep {b : Original.Banco} (hb : contasLedgerOk b)
    (n v : String) : contasLedgerOk (b.depositar n v).1 := by
  cases hbo : b.buscar_conta n with
  | error e => simp [Original.Banco.depositar, hbo]; exact hb
  | ok co =>
    have hco : contaLedgerOk co := hb (n, co) (alookup_mem (origBuscar_some hbo))
    cases hm : Original.to_money v with
    | error e => simp [Original.Banco.depositar, hbo, hm]; exact hb
    | ok vc =>
      have : (b.depositar n v).1 = b.updateConta n (co.depositar vc "depósito").1 := by
        rw [Original.Banco.depositar]
        simp [hbo, hm]
      rw [this]
      exact contasOk_update hb (origConta_dep_pres hco)

theorem contasOk_sac {b : Original.Banco} (hb : contasLedgerOk b)
    (n v : String) : contasLedgerOk (b.sacar n v).1 := by
  cases hbo : b.buscar_conta n with
  | error e => simp [Original.Banco.sacar, hbo]; exact hb
  | ok co =>
    have hco : contaLedgerOk co := hb (n, co) (alookup_mem (origBuscar_some hbo))
    cases hm : Original.to_money v with
    | error e => simp [Original.Banco.sacar, hbo, hm]; exact hb
    | ok vc =>
      have : (b.sacar n v).1 = b.updateConta n (co.sacar vc "saque").1 := by
        rw [Original.Banco.sacar]
        simp [hbo, hm]
      rw [this]
      exact contasOk_update hb (origConta_sac_pres hco)

theorem contasOk_transf {b : Original.Banco} (hb : contasLedgerOk b)
    (o d v : String) : contasLedgerOk (b.transferir o d v).1 := by
  by_cases ho : o = d
  · simpa [Original.Banco.transferir, ho] using hb
  · cases hm : Original.to_money v with
    | error e => simpa [Original.Banco.transferir, ho, hm] using hb
    | ok vc =>
      cases hbo : b.buscar_conta o with
      | error e => simpa [Original.Banco.transferir, ho, hm, hbo] using hb
      | ok co =>
        have hco : contaLedgerOk co := hb (o, co) (alookup_mem (origBuscar_some hbo))
        cases hbd : b.buscar_conta d with
        | error e => simpa [Original.Banco.transferir, ho, hm, hbo, hbd] using hb
        | ok cd =>
          have hcd : contaLedgerOk cd := hb (d, cd) (alookup_mem (origBuscar_some hbd))
          have hrs1 : contaLedgerOk (co.sacar vc ("transferência para " ++ d)).1 :=
            origConta_sac_pres hco
          have hrd1 : contaLedgerOk
              (cd.depositar vc ("transferência de " ++ o)).1 :=
            origConta_dep_pres hcd
          cases hrs : (co.sacar vc ("transferência para " ++ d)).2 with
          | error e =>
            have : (b.transferir o d v).1 =
                b.updateConta o (co.sacar vc ("transferência para " ++ d)).1 := by
              rw [Original.Banco.transferir]
              simp [ho, hm, hbo, hbd, hrs]
            rw [this]
            exact contasOk_update hb hrs1
          | ok u =>
            cases hrd : (cd.depositar vc ("transferência de " ++ o)).2 with
            | error e =>
              have : (b.transferir o d v).1 =
                  (b.updateConta o (co.sacar vc ("transferência para " ++ d)).1).updateConta
                    d (cd.depositar vc ("transferência de " ++ o)).1 := by
                rw [Original.Banco.transferir]
                simp [ho, hm, hbo, hbd, hrs, hrd]
              rw [this]
              exact contasOk_update (contasOk_update hb hrs1) hrd1
            | ok u2 =>
              have : (b.transferir o d v).1 =
                  (b.updateConta o
                    { (co.sacar vc ("transferência para " ++ d)).1 with
                        historico := (co.sacar vc ("transferência para " ++ d)).1.historico ++
                          [⟨"TRANSFERENCIA", vc, "transferência", o, d⟩] }).updateConta d
                    { (cd.depositar vc ("transferência de " ++ o)).1 with
                        historico := (cd.depositar vc ("transferência de " ++ o)).1.historico ++
                          [⟨"TRANSFERENCIA", vc, "transferência", o, d⟩] } := by
                rw [Original.Banco.transferir]
                simp [ho, hm, hbo, hbd, hrs, hrd]
              rw [this]
              have hz : signedAmount ⟨"TRANSFERENCIA", vc, "transferência", o, d⟩ = 0 := rfl
              exact contasOk_update
                (contasOk_update hb (contaOk_append_transt hrs1 hz))
                (contaOk_append_transt hrd1 hz)

theorem contasOk_applyO {b : Original.Banco} (hb : contasLedgerOk b) (op : Op) :
    contasLedgerOk (applyO b op).1 := by
  cases op with
  | criarCliente nome cpf => exact contasOk_criar hb nome cpf
  | abrirConta cpf => exact contasOk_abrir hb cpf
  | buscarConta n => exact hb
  | depositar n v => exact contasOk_dep hb n v
  | sacar n v => exact contasOk_sac hb n v
  | transferir o d v => exact contasOk_transf hb o d v
  | extrato n => exact hb
  | listar => exact hb

theorem contasOk_foldl (ops : List Op) :
    ∀ b : Original.Banco, contasLedgerOk b →
      contasLedgerOk (ops.foldl (fun b op => (applyO b op).1) b) := by
  induction ops with
  | nil => intro b hb; exact hb
  | cons op t ih =>
    intro b hb
    exact ih _ (contasOk_applyO hb op)

end ClaimC1Lemmas

section ClaimC1

/-- C1: on every ledger state reachable by public calls from a fresh bank
(original variant), every registered account's balance equals the sum of
the signed amounts of its transaction log — DEPOSITO records (deposits and
transfer credit legs) count positive, SAQUE records (withdrawals and
transfer debit legs) count negative, and the shared TRANSFERENCIA summary
record moves no money — and no balance is ever negative. -/
theorem claim_C1_balance_invariant (ops : List Op) (p : String × Original.Conta)
    (hp : p ∈ (runO ops).contas_por_numero) :
    p.2.saldo = signedSum p.2.historico ∧ 0 ≤ p.2.saldo := by
  have h0 : contasLedgerOk Original.Banco.init := by
    intro q hq
    cases hq
  exact contasOk_foldl ops Original.Banco.init h0 p hp

/-- Witness for C1 on a concrete run: create a customer, open an account,
deposit 10.00 then withdraw 4.00 and receive nothing else; the stored
account satisfies the invariant. -/
theorem claim_C1_balance_invariant_witness :
    (("1001", ⟨"1001", ⟨1, "Ana", "111"⟩, 600,
        [⟨"DEPOSITO", 1000, "depósito", "", "1001"⟩,
         ⟨"SAQUE", 400, "saque", "1001", ""⟩]⟩) :
        String × Original.Conta) ∈
      (runO [.criarCliente "Ana" "111", .abrirConta "111",
             .depositar "1001" "10", .sacar "1001" "4"]).contas_por_numero ∧
    (600 : Int) = signedSum [⟨"DEPOSITO", 1000, "depósito", "", "1001"⟩,
        ⟨"SAQUE", 400, "saque", "1001", ""⟩] ∧ (0 : Int) ≤ 600 := by
  refine ⟨by decide, ?_⟩
  have h := claim_C1_balance_invariant
    [.criarCliente "Ana" "111", .abrirConta "111",
     .depositar "1001" "10", .sacar "1001" "4"]
    ("1001", ⟨"1001", ⟨1, "Ana", "111"⟩, 600,
        [⟨"DEPOSITO", 1000, "depósito", "", "1001"⟩,
         ⟨"SAQUE", 400, "saque", "1001", ""⟩]⟩)
    (by decide)
  exact h

end ClaimC1

section SimHelpers

theorem contas_rel {bO : Original.Banco} {bS : Solid.Banco}
    (hE : eraseBancoO bO = eraseBancoS bS) (k : String) :
    (alookup bO.contas_por_numero k).map eraseContaO =
      (alookup bS.contas_por_numero k).map eraseContaS := by
  have hct : bO.contas_por_numero.map (fun p => (p.1, eraseContaO p.2)) =
      bS.contas_por_numero.map (fun p => (p.1, eraseContaS p.2)) :=
    congrArg EBanco.contas_por_numero hE
  calc (alookup bO.contas_por_numero k).map eraseContaO
      = alookup (bO.contas_por_numero.map (fun p => (p.1, eraseContaO p.2))) k :=
        (alookup_mapVal eraseContaO _ k).symm
    _ = alookup (bS.contas_por_numero.map (fun p => (p.1, eraseContaS p.2))) k := by
        rw [hct]
    _ = (alookup bS.contas_por_numero k).map eraseContaS :=
        alookup_mapVal eraseContaS _ k

theorem erase_update {bO : Original.Banco} {bS : Solid.Banco}
    {coO : Original.Conta} {coS : Solid.Conta}
    (hE : eraseBancoO bO = eraseBancoS bS)
    (hc : eraseContaO coO = eraseContaS coS) (k : String) :
    eraseBancoO (bO.updateConta k coO) = eraseBancoS (bS.updateConta k coS) := by
  have hcl : bO.clientes_por_cpf = bS.clientes_por_cpf :=
    congrArg EBanco.clientes_por_cpf hE
  have hct : bO.contas_por_numero.map (fun p => (p.1, eraseContaO p.2)) =
      bS.contas_por_numero.map (fun p => (p.1, eraseContaS p.2)) :=
    congrArg EBanco.contas_por_numero hE
  have hsc : bO.seq_cliente = bS.seq_cliente := congrArg EBanco.seq_cliente hE
  have hsa : bO.seq_conta = bS.seq_conta := congrArg EBanco.seq_conta hE
  show EBanco.mk _ _ _ _ = EBanco.mk _ _ _ _
  rw [EBanco.mk.injEq]
  refine ⟨hcl, ?_, hsc, hsa⟩
  show (replaceFirst bO.contas_por_numero k coO).map (fun p => (p.1, eraseContaO p.2)) =
    (replaceFirst bS.contas_por_numero k coS).map (fun p => (p.1, eraseContaS p.2))
  rw [← replaceFirst_mapVal eraseContaO, ← replaceFirst_mapVal eraseContaS, hct, hc]

theorem dep_conta_sim {coO : Original.Conta} {coS : Solid.Conta}
    (hc : eraseContaO coO = eraseContaS coS) (v : Int) (d1 d2 : String) :
    eraseContaO (coO.depositar v d1).1 = eraseContaS (coS.depositar v d2).1 ∧
    (coO.depositar v d1).2 = (coS.depositar v d2).2 := by
  have hnum : coO.numero = coS.numero := congrArg EConta.numero hc
  have hcli : coO.cliente = coS.cliente := congrArg EConta.cliente hc
  have hsal : coO.saldo = coS.saldo := congrArg EConta.saldo hc
  have hhist : coO.historico.map eraseTrans =
      coS.transacoes.historico.map eraseTrans := congrArg EConta.historico hc
  rw [Original.Conta.depositar, Solid.Conta.depositar]
  by_cases hv : v ≤ 0
  · simp only [hv, if_true, if_pos hv]
    exact ⟨hc, trivial⟩
  · simp only [hv, if_false, if_neg hv]
    refine ⟨?_, trivial⟩
    show EConta.mk _ _ _ _ = EConta.mk _ _ _ _
    rw [EConta.mk.injEq]
    refine ⟨hnum, hcli, by rw [hsal], ?_⟩
    show (coO.historico ++ [_]).map eraseTrans =
      (Solid.RegistroTransacoes.registrar coS.transacoes _).historico.map eraseTrans
    rw [Solid.RegistroTransacoes.registrar]
    simp only [List.map_append, hhist]
    congr 1
    simp [eraseTrans, hnum]

theorem sac_conta_sim {coO : Original.Conta} {coS : Solid.Conta}
    (hc : eraseContaO coO = eraseContaS coS) (v : Int) (d1 d2 : String) :
    eraseContaO (coO.sacar v d1).1 = eraseContaS (coS.sacar v d2).1 ∧
    (coO.sacar v d1).2 = (coS.sacar v d2).2 := by
  have hnum : coO.numero = coS.numero := congrArg EConta.numero hc
  have hcli : coO.cliente = coS.cliente := congrArg EConta.cliente hc
  have hsal : coO.saldo = coS.saldo := congrArg EConta.saldo hc
  have hhist : coO.historico.map eraseTrans =
      coS.transacoes.historico.map eraseTrans := congrArg EConta.historico hc
  rw [Original.Conta.sacar, Solid.Conta.sacar]
  by_cases hv : v ≤ 0
  · simp only [hv, if_true, if_pos hv]
    exact ⟨hc, trivial⟩
  · by_cases hs : coO.saldo < v
    · have hs2 : coS.saldo < v := by rw [← hsal]; exact hs
      simp only [hv, if_false, if_neg hv, hs, if_true, if_pos hs2]
      exact ⟨hc, trivial⟩
    · have hs2 : ¬ coS.saldo < v := by rw [← hsal]; exact hs
      simp only [hv, if_false, if_neg hv, hs, if_neg hs2]
      refine ⟨?_, trivial⟩
      show EConta.mk _ _ _ _ = EConta.mk _ _ _ _
      rw [EConta.mk.injEq]
      refine ⟨hnum, hcli, by rw [hsal], ?_⟩
      show (coO.historico ++ [_]).map eraseTrans =
        (Solid.RegistroTransacoes.registrar coS.transacoes _).historico.map eraseTrans
      rw [Solid.RegistroTransacoes.registrar]
      simp only [List.map_append, hhist]
      congr 1
      simp [eraseTrans, hnum]

end SimHelpers

section SimOps

theorem sim_criar {bO : Original.Banco} {bS : Solid.Banco}
    (hE : eraseBancoO bO = eraseBancoS bS) (nome cpf : String) :
    (bO.criar_cliente nome cpf).1 = (bS.criar_cliente nome cpf).1 ∧
    eraseBancoO (bO.criar_cliente nome cpf).2 =
      eraseBancoS (bS.criar_cliente nome cpf).2 := by
  have hcl : bO.clientes_por_cpf = bS.clientes_por_cpf :=
    congrArg EBanco.clientes_por_cpf hE
  have hct : bO.contas_por_numero.map (fun p => (p.1, eraseContaO p.2)) =
      bS.contas_por_numero.map (fun p => (p.1, eraseContaS p.2)) :=
    congrArg EBanco.contas_por_numero hE
  have hsc : bO.seq_cliente = bS.seq_cliente := congrArg EBanco.seq_cliente hE
  have hsa : bO.seq_conta = bS.seq_conta := congrArg EBanco.seq_conta hE
  cases hl : alookup bO.clientes_por_cpf cpf with
  | some c =>
    have hl2 : alookup bS.clientes_por_cpf cpf = some c := by rw [← hcl]; exact hl
    simp only [Original.Banco.criar_cliente, Solid.Banco.criar_cliente, hl, hl2]
    exact ⟨trivial, hE⟩
  | none =>
    have hl2 : alookup bS.clientes_por_cpf cpf = none := by rw [← hcl]; exact hl
    simp only [Original.Banco.criar_cliente, Solid.Banco.criar_cliente, hl, hl2]
    constructor
    · rw [hsc]
    · show EBanco.mk _ _ _ _ = EBanco.mk _ _ _ _
      rw [EBanco.mk.injEq]
      exact ⟨by rw [hcl, hsc], hct, by rw [hsc], hsa⟩

theorem sim_abrir {bO : Original.Banco} {bS : Solid.Banco}
    (hE : eraseBancoO bO = eraseBancoS bS) (cpf : String) :
    eraseBancoO (bO.abrir_conta cpf).1 = eraseBancoS (bS.abrir_conta cpf).1 ∧
    ((∃ cO cS, (bO.abrir_conta cpf).2 = .ok cO ∧ (bS.abrir_conta cpf).2 = .ok cS ∧
        eraseContaO cO = eraseContaS cS) ∨
     (∃ e, (bO.abrir_conta cpf).2 = .error e ∧ (bS.abrir_conta cpf).2 = .error e)) := by
  have hcl : bO.clientes_por_cpf = bS.clientes_por_cpf :=
    congrArg EBanco.clientes_por_cpf hE
  have hct : bO.contas_por_numero.map (fun p => (p.1, eraseContaO p.2)) =
      bS.contas_por_numero.map (fun p => (p.1, eraseContaS p.2)) :=
    congrArg EBanco.contas_por_numero hE
  have hsc : bO.seq_cliente = bS.seq_cliente := congrArg EBanco.seq_cliente hE
  have hsa : bO.seq_conta = bS.seq_conta := congrArg EBanco.seq_conta hE
  cases hl : alookup bO.clientes_por_cpf cpf with
  | none =>
    have hl2 : alookup bS.clientes_por_cpf cpf = none := by rw [← hcl]; exact hl
    simp only [Original.Banco.abrir_conta, Solid.Banco.abrir_conta, hl, hl2]
    exact ⟨hE, Or.inr ⟨_, rfl, rfl⟩⟩
  | some cliente =>
    have hl2 : alookup bS.clientes_por_cpf cpf = some cliente := by
      rw [← hcl]; exact hl
    simp only [Original.Banco.abrir_conta, Solid.Banco.abrir_conta, hl, hl2]
    constructor
    · show EBanco.mk _ _ _ _ = EBanco.mk _ _ _ _
      rw [EBanco.mk.injEq]
      refine ⟨hcl, ?_, hsc, by rw [hsa]⟩
      show (dictSet bO.contas_por_numero (toString bO.seq_conta) _).map
          (fun p => (p.1, eraseContaO p.2)) =
        (dictSet bS.contas_por_numero (toString bS.seq_conta) _).map
          (fun p => (p.1, eraseContaS p.2))
      rw [← dictSet_mapVal eraseContaO, ← dictSet_mapVal eraseContaS, hct, hsa]
      rfl
    · exact Or.inl ⟨_, _, rfl, rfl, by rw [hsa]; rfl⟩

theorem sim_buscar {bO : Original.Banco} {bS : Solid.Banco}
    (hE : eraseBancoO bO = eraseBancoS bS) (n : String) :
    (∃ cO cS, bO.buscar_conta n = .ok cO ∧ bS.buscar_conta n = .ok cS ∧
        eraseContaO cO = eraseContaS cS) ∨
    (∃ e, bO.buscar_conta n = .error e ∧ bS.buscar_conta n = .error e) := by
  have hr := contas_rel hE n
  cases hO : alookup bO.contas_por_numero n with
  | none =>
    cases hS : alookup bS.contas_por_numero n with
    | none =>
      right
      exact ⟨_, by rw [Original.Banco.buscar_conta, hO],
        by rw [Solid.Banco.buscar_conta, hS]⟩
    | some cS => rw [hO, hS] at hr; simp at hr
  | some cO =>
    cases hS : alookup bS.contas_por_numero n with
    | none => rw [hO, hS] at hr; simp at hr
    | some cS =>
      left
      refine ⟨cO, cS, by rw [Original.Banco.buscar_conta, hO],
        by rw [Solid.Banco.buscar_conta, hS], ?_⟩
      rw [hO, hS] at hr
      simpa using hr

theorem sim_extrato {bO : Original.Banco} {bS : Solid.Banco}
    (hE : eraseBancoO bO = eraseBancoS bS) (n : String) :
    (∃ lO lS, bO.extrato n = .ok lO ∧ bS.extrato n = .ok lS ∧
        lO.map eraseTrans = lS.map eraseTrans) ∨
    (∃ e, bO.extrato n = .error e ∧ bS.extrato n = .error e) := by
  rcases sim_buscar hE n with ⟨cO, cS, hbO, hbS, hc⟩ | ⟨e, hbO, hbS⟩
  · left
    refine ⟨cO.historico, cS.transacoes.historico,
      by rw [Original.Banco.extrato, hbO],
      by rw [Solid.Banco.extrato, hbS]; rfl, ?_⟩
    exact congrArg EConta.historico hc
  · right
    exact ⟨e, by rw [Original.Banco.extrato, hbO],
      by rw [Solid.Banco.extrato, hbS]⟩

end SimOps

section SimDepSac

theorem sim_dep {bO : Original.Banco} {bS : Solid.Banco}
    (hE : eraseBancoO bO = eraseBancoS bS) (n v : String) :
    eraseBancoO (bO.depositar n v).1 = eraseBancoS (bS.depositar n v).1 ∧
    (((bO.depositar n v).2 = .ok () ∧ (bS.depositar n v).2 = .ok ()) ∨
     (∃ e1 e2, (bO.depositar n v).2 = .error e1 ∧ (bS.depositar n v).2 = .error e2)) := by
  rcases sim_buscar hE n with ⟨cO, cS, hbO, hbS, hc⟩ | ⟨e, hbO, hbS⟩
  · rcases to_money_rel v with ⟨c, hmO, hmS⟩ | ⟨⟨e1, hmO⟩, ⟨e2, hmS⟩⟩
    · have hd := dep_conta_sim hc c "depósito" "Depósito"
      constructor
      · simp only [Original.Banco.depositar, Solid.Banco.depositar, hbO, hbS, hmO, hmS]
        exact erase_update hE hd.1 n
      · simp only [Original.Banco.depositar, Solid.Banco.depositar, hbO, hbS, hmO, hmS]
        cases hr : (cO.depositar c "depósito").2 with
        | ok u =>
          have hrS : (cS.depositar c "Depósito").2 = .ok u := by rw [← hd.2]; exact hr
          left
          exact ⟨rfl, hrS⟩
        | error e0 =>
          have hrS : (cS.depositar c "Depósito").2 = .error e0 := by rw [← hd.2]; exact hr
          right
          exact ⟨e0, e0, rfl, hrS⟩
    · constructor
      · simp only [Original.Banco.depositar, Solid.Banco.depositar, hbO, hbS, hmO, hmS]
        exact hE
      · right
        refine ⟨e1, e2, ?_, ?_⟩
        · simp [Original.Banco.depositar, hbO, hmO]
        · simp [Solid.Banco.depositar, hbS, hmS]
  · constructor
    · simp only [Original.Banco.depositar, Solid.Banco.depositar, hbO, hbS]
      exact hE
    · right
      refine ⟨e, e, ?_, ?_⟩
      · simp [Original.Banco.depositar, hbO]
      · simp [Solid.Banco.depositar, hbS]

theorem sim_sac {bO : Original.Banco} {bS : Solid.Banco}
    (hE : eraseBancoO bO = eraseBancoS bS) (n v : String) :
    eraseBancoO (bO.sacar n v).1 = eraseBancoS (bS.sacar n v).1 ∧
    (((bO.sacar n v).2 = .ok () ∧ (bS.sacar n v).2 = .ok ()) ∨
     (∃ e1 e2, (bO.sacar n v).2 = .error e1 ∧ (bS.sacar n v).2 = .error e2)) := by
  rcases sim_buscar hE n with ⟨cO, cS, hbO, hbS, hc⟩ | ⟨e, hbO, hbS⟩
  · rcases to_money_rel v with ⟨c, hmO, hmS⟩ | ⟨⟨e1, hmO⟩, ⟨e2, hmS⟩⟩
    · have hd := sac_conta_sim hc c "saque" "Saque"
      constructor
      · simp only [Original.Banco.sacar, Solid.Banco.sacar, hbO, hbS, hmO, hmS]
        exact erase_update hE hd.1 n
      · simp only [Original.Banco.sacar, Solid.Banco.sacar, hbO, hbS, hmO, hmS]
        cases hr : (cO.sacar c "saque").2 with
        | ok u =>
          have hrS : (cS.sacar c "Saque").2 = .ok u := by rw [← hd.2]; exact hr
          left
          exact ⟨rfl, hrS⟩
        | error e0 =>
          have hrS : (cS.sacar c "Saque").2 = .error e0 := by rw [← hd.2]; exact hr
          right
          exact ⟨e0, e0, rfl, hrS⟩
    · constructor
      · simp only [Original.Banco.sacar, Solid.Banco.sacar, hbO, hbS, hmO, hmS]
        exact hE
      · right
        refine ⟨e1, e2, ?_, ?_⟩
        · simp [Original.Banco.sacar, hbO, hmO]
        · simp [Solid.Banco.sacar, hbS, hmS]
  · constructor
    · simp only [Original.Banco.sacar, Solid.Banco.sacar, hbO, hbS]
      exact hE
    · right
      refine ⟨e, e, ?_, ?_⟩
      · simp [Original.Banco.sacar, hbO]
      · simp [Solid.Banco.sacar, hbS]

end SimDepSac

section SimListar

theorem filter_snd_rel {lO : List (String × Original.Conta)}
    {lS : List (String × Solid.Conta)}
    (h : lO.map (fun p => (p.1, eraseContaO p.2)) =
      lS.map (fun p => (p.1, eraseContaS p.2))) (k : String) :
    (lO.filter (fun q => q.2.cliente.cpf = k)).map (fun q => eraseContaO q.2) =
    (lS.filter (fun q => q.2.cliente.cpf = k)).map (fun q => eraseContaS q.2) := by
  induction lO generalizing lS with
  | nil =>
    cases lS with
    | nil => rfl
    | cons b tS => simp at h
  | cons a tO ih =>
    cases lS with
    | nil => simp at h
    | cons b tS =>
      simp only [List.map_cons, List.cons.injEq] at h
      obtain ⟨hhead, htail⟩ := h
      have h2 : eraseContaO a.2 = eraseContaS b.2 := congrArg Prod.snd hhead
      have hcpf2 : a.2.cliente.cpf = b.2.cliente.cpf :=
        congrArg (fun ec => ec.cliente.cpf) h2
      by_cases hk : a.2.cliente.cpf = k
      · have hk2 : b.2.cliente.cpf = k := by rw [← hcpf2]; exact hk
        simp only [List.filter, hk, hk2, decide_True, List.map_cons]
        rw [ih htail, h2]
      · have hk2 : ¬ b.2.cliente.cpf = k := by rw [← hcpf2]; exact hk
        simp only [List.filter, hk, hk2, decide_False]
        exact ih htail

theorem sim_listar {bO : Original.Banco} {bS : Solid.Banco}
    (hcpf : cpfKeyOk bO) (hE : eraseBancoO bO = eraseBancoS bS) :
    (bO.listar_clientes_e_contas).map (fun p => (p.1, p.2.map eraseContaO)) =
    (bS.listar_clientes_e_contas).map (fun p => (p.1, p.2.map eraseContaS)) := by
  have hcl : bO.clientes_por_cpf = bS.clientes_por_cpf :=
    congrArg EBanco.clientes_por_cpf hE
  have hct : bO.contas_por_numero.map (fun p => (p.1, eraseContaO p.2)) =
      bS.contas_por_numero.map (fun p => (p.1, eraseContaS p.2)) :=
    congrArg EBanco.contas_por_numero hE
  rw [Original.Banco.listar_clientes_e_contas, Solid.Banco.listar_clientes_e_contas,
    ← hcl, List.map_map, List.map_map]
  apply List.map_congr_left
  intro p hp
  have hx : p.2.cpf = p.1 := hcpf p hp
  show (p.2, ((bO.contas_por_numero.filter
      (fun q => q.2.cliente.cpf = p.1)).map (fun q => q.2)).map eraseContaO) =
    (p.2, ((bS.contas_por_numero.filter
      (fun q => q.2.cliente.cpf = p.2.cpf)).map (fun q => q.2)).map eraseContaS)
  rw [hx, List.map_map, List.map_map]
  exact congrArg (Prod.mk p.2) (filter_snd_rel hct p.1)

end SimListar

section SimTransf

theorem solidTransf_self_err (bS : Solid.Banco) (o v : String) :
    ∃ e, (bS.transferir o o v).2 = .error e := by
  cases hbo : bS.buscar_conta o with
  | error e => exact ⟨e, by simp [Solid.Banco.transferir, hbo]⟩
  | ok co =>
    cases hm : Solid.to_money v with
    | error e => exact ⟨e, by simp [Solid.Banco.transferir, hbo, hm]⟩
    | ok c =>
      exact ⟨.valorInvalido "contas iguais", by
        simp [Solid.Banco.transferir, hbo, hm, Solid.Transferencia.executar]⟩

theorem solidTransf_money_err (bS : Solid.Banco) (o d : String) {v : String} {e2 : Erro}
    (hm : Solid.to_money v = .error e2) :
    ∃ e3, (bS.transferir o d v).2 = .error e3 := by
  cases hbo : bS.buscar_conta o with
  | error e => exact ⟨e, by simp [Solid.Banco.transferir, hbo]⟩
  | ok co =>
    cases hbd : bS.buscar_conta d with
    | error e => exact ⟨e, by simp [Solid.Banco.transferir, hbo, hbd]⟩
    | ok cd => exact ⟨e2, by simp [Solid.Banco.transferir, hbo, hbd, hm]⟩

theorem erase_conta_mk_rel {cO : Original.Conta} {cS : Solid.Conta}
    (hc : eraseContaO cO = eraseContaS cS) {s1 s2 : Int} (hs : s1 = s2)
    {l1 l2 : List Transacao} (hl : l1.map eraseTrans = l2.map eraseTrans) :
    eraseContaO { cO with
        saldo := s1
        historico := cO.historico ++ l1 } =
    eraseContaS { cS with
        saldo := s2
        transacoes := ⟨cS.transacoes.historico ++ l2⟩ } := by
  have hnum : cO.numero = cS.numero := congrArg EConta.numero hc
  have hcli : cO.cliente = cS.cliente := congrArg EConta.cliente hc
  have hhist : cO.historico.map eraseTrans =
      cS.transacoes.historico.map eraseTrans := congrArg EConta.historico hc
  show EConta.mk _ _ _ _ = EConta.mk _ _ _ _
  rw [EConta.mk.injEq]
  refine ⟨hnum, hcli, hs, ?_⟩
  show (cO.historico ++ l1).map eraseTrans = (cS.transacoes.historico ++ l2).map eraseTrans
  rw [List.map_append, List.map_append, hhist, hl]

theorem sim_transf {bO : Original.Banco} {bS : Solid.Banco}
    (hkey : numeroKeyOk bO)
    (hE : eraseBancoO bO = eraseBancoS bS) (o d v : String) :
    eraseBancoO (bO.transferir o d v).1 = eraseBancoS (bS.transferir o d v).1 ∧
    (((bO.transferir o d v).2 = .ok () ∧ (bS.transferir o d v).2 = .ok ()) ∨
     (∃ e1 e2, (bO.transferir o d v).2 = .error e1 ∧
        (bS.transferir o d v).2 = .error e2)) := by
  by_cases ho : o = d
  · subst ho
    have hO : bO.transferir o o v = (bO, .error (.valorInvalido "contas iguais")) := by
      rw [Original.Banco.transferir]
      simp
    obtain ⟨e, hS2⟩ := solidTransf_self_err bS o v
    have hS1 := solidTransferir_error_unchanged hS2
    rw [hO, hS1]
    exact ⟨hE, Or.inr ⟨_, e, rfl, hS2⟩⟩
  · rcases to_money_rel v with ⟨c, hmO, hmS⟩ | ⟨⟨e1, hmO⟩, ⟨e2, hmS⟩⟩
    · rcases sim_buscar hE o with ⟨cO, cS, hbO, hbS, hc⟩ | ⟨e, hbO, hbS⟩
      · rcases sim_buscar hE d with ⟨cdO, cdS, hbdO, hbdS, hcd⟩ | ⟨e, hbdO, hbdS⟩
        · -- both accounts found in both variants
          have hnumO : cO.numero = o := hkey (o, cO) (alookup_mem (origBuscar_some hbO))
          have hnumdO : cdO.numero = d := hkey (d, cdO) (alookup_mem (origBuscar_some hbdO))
          have hnumS : cO.numero = cS.numero := congrArg EConta.numero hc
          have hnumdS : cdO.numero = cdS.numero := congrArg EConta.numero hcd
          have hSo : cS.numero = o := by rw [← hnumS]; exact hnumO
          have hSd : cdS.numero = d := by rw [← hnumdS]; exact hnumdO
          have hnn : cS.numero ≠ cdS.numero := by
            rw [hSo, hSd]
            exact ho
          have hsal : cO.saldo = cS.saldo := congrArg EConta.saldo hc
          have hsac := sac_conta_sim hc c ("transferência para " ++ d)
            ("Transferência para " ++ cdS.numero)
          cases hrs : (cO.sacar c ("transferência para " ++ d)).2 with
          | error e =>
            have hrsS : (cS.sacar c ("Transferência para " ++ cdS.numero)).2 =
                .error e := by rw [← hsac.2]; exact hrs
            have hO1 : (bO.transferir o d v).1 = bO := by
              have h2 := origUpdateConta_self (origBuscar_some hbO)
              rw [Original.Banco.transferir]
              simp [ho, hmO, hbO, hbdO, hrs, origSacar_error_state hrs, h2]
            have hO2 : (bO.transferir o d v).2 = .error e := by
              rw [Original.Banco.transferir]
              simp [ho, hmO, hbO, hbdO, hrs]
            have hS2 : (bS.transferir o d v).2 = .error e := by
              rw [Solid.Banco.transferir]
              simp [hbS, hbdS, hmS, Solid.Transferencia.executar, hnn, hrsS]
            have hS1 := solidTransferir_error_unchanged hS2
            rw [hO1, hS1]
            exact ⟨hE, Or.inr ⟨e, e, hO2, hS2⟩⟩
          | ok u =>
            obtain ⟨hv, hs⟩ := origSacar_ok_bounds hrs
            have hspecO := origTransferir_ok_spec hbO hbdO ho hmO hv hs
            have hspecS := solidTransferir_ok_spec hbS hbdS hnn hmS hv
              (by rw [← hsal]; exact hs)
            constructor
            · rw [hspecO, hspecS]
              have hsalD : cdO.saldo = cdS.saldo := congrArg EConta.saldo hcd
              have h1 : eraseContaO
                  { cO with
                      saldo := cO.saldo - c
                      historico := cO.historico ++
                        [origSaqueT cO.numero d c, origTransT o d c] } =
                  eraseContaS
                  { cS with
                      saldo := cS.saldo - c
                      transacoes := ⟨cS.transacoes.historico ++
                        [solidSaqueT cS.numero cdS.numero c,
                         solidTransT cS.numero cdS.numero c]⟩ } :=
                erase_conta_mk_rel hc (by rw [hsal]) (by
                  show [origSaqueT cO.numero d c, origTransT o d c].map eraseTrans =
                    [solidSaqueT cS.numero cdS.numero c,
                     solidTransT cS.numero cdS.numero c].map eraseTrans
                  simp [eraseTrans, origSaqueT, solidSaqueT, origTransT,
                    solidTransT, hnumS, hSo, hSd])
              have h2 : eraseContaO
                  { cdO with
                      saldo := cdO.saldo + c
                      historico := cdO.historico ++
                        [origDepT cdO.numero o c, origTransT o d c] } =
                  eraseContaS
                  { cdS with
                      saldo := cdS.saldo + c
                      transacoes := ⟨cdS.transacoes.historico ++
                        [solidDepT cdS.numero cS.numero c,
                         solidTransT cS.numero cdS.numero c]⟩ } :=
                erase_conta_mk_rel hcd (by rw [hsalD]) (by
                  show [origDepT cdO.numero o c, origTransT o d c].map eraseTrans =
                    [solidDepT cdS.numero cS.numero c,
                     solidTransT cS.numero cdS.numero c].map eraseTrans
                  simp [eraseTrans, origDepT, solidDepT, origTransT,
                    solidTransT, hnumdS, hSo, hSd])
              exact erase_update (erase_update hE h1 o) h2 d
            · left
              constructor
              · rw [hspecO]
              · rw [hspecS]
        · -- destination missing in both variants
          have hO1 : bO.transferir o d v = (bO, .error e) := by
            rw [Original.Banco.transferir]
            simp [ho, hmO, hbO, hbdO]
          have hS2 : (bS.transferir o d v).2 = .error e := by
            rw [Solid.Banco.transferir]
            simp [hbS, hbdS]
          have hS1 := solidTransferir_error_unchanged hS2
          rw [hO1, hS1]
          exact ⟨hE, Or.inr ⟨e, e, rfl, hS2⟩⟩
      · -- source missing in both variants
        have hO1 : bO.transferir o d v = (bO, .error e) := by
          rw [Original.Banco.transferir]
          simp [ho, hmO, hbO]
        have hS2 : (bS.transferir o d v).2 = .error e := by
          rw [Solid.Banco.transferir]
          simp [hbS]
        have hS1 := solidTransferir_error_unchanged hS2
        rw [hO1, hS1]
        exact ⟨hE, Or.inr ⟨e, e, rfl, hS2⟩⟩
    · -- amount normalization fails in both variants
      have hO1 : bO.transferir o d v = (bO, .error e1) := by
        rw [Original.Banco.transferir]
        simp [ho, hmO]
      obtain ⟨e3, hS2⟩ := solidTransf_money_err bS o d hmS
      have hS1 := solidTransferir_error_unchanged hS2
      rw [hO1, hS1]
      exact ⟨hE, Or.inr ⟨e1, e3, rfl, hS2⟩⟩

end SimTransf

section InvPreservation

theorem origDep_numero (c : Original.Conta) (v : Int) (d : String) :
    (c.depositar v d).1.numero = c.numero := by
  rw [Original.Conta.depositar]
  by_cases hv : v ≤ 0 <;> simp [hv]

theorem origSac_numero (c : Original.Conta) (v : Int) (d : String) :
    (c.sacar v d).1.numero = c.numero := by
  rw [Original.Conta.sacar]
  by_cases hv : v ≤ 0
  · simp [hv]
  · by_cases hs : c.saldo < v <;> simp [hv, hs]

theorem numeroKey_update {b : Original.Banco} {k : String} {c : Original.Conta}
    (hb : numeroKeyOk b) (hc : c.numero = k) : numeroKeyOk (b.updateConta k c) := by
  intro p hp
  rcases mem_replaceFirst hp with h1 | h2
  · rw [h1]
    exact hc
  · exact hb p h2

theorem numeroKey_criar {b : Original.Banco} (hb : numeroKeyOk b)
    (nome cpf : String) : numeroKeyOk (b.criar_cliente nome cpf).2 := by
  rw [Original.Banco.criar_cliente]
  cases hl : alookup b.clientes_por_cpf cpf with
  | some c => exact hb
  | none => exact hb

theorem numeroKey_abrir {b : Original.Banco} (hb : numeroKeyOk b)
    (cpf : String) : numeroKeyOk (b.abrir_conta cpf).1 := by
  rw [Original.Banco.abrir_conta]
  cases hl : alookup b.clientes_por_cpf cpf with
  | none => exact hb
  | some cliente =>
    intro p hp
    rcases mem_dictSet hp with h1 | h2
    · rw [h1]
    · exact hb p h2

theorem numeroKey_dep {b : Original.Banco} (hb : numeroKeyOk b)
    (n v : String) : numeroKeyOk (b.depositar n v).1 := by
  cases hbo : b.buscar_conta n with
  | error e => simpa [Original.Banco.depositar, hbo] using hb
  | ok co =>
    have hn : co.numero = n := hb (n, co) (alookup_mem (origBuscar_some hbo))
    cases hm : Original.to_money v with
    | error e => simpa [Original.Banco.depositar, hbo, hm] using hb
    | ok vc =>
      have hst : (b.depositar n v).1 = b.updateConta n (co.depositar vc "depósito").1 := by
        rw [Original.Banco.depositar]
        simp [hbo, hm]
      rw [hst]
      exact numeroKey_update hb (by rw [origDep_numero]; exact hn)

theorem numeroKey_sac {b : Original.Banco} (hb : numeroKeyOk b)
    (n v : String) : numeroKeyOk (b.sacar n v).1 := by
  cases hbo : b.buscar_conta n with
  | error e => simpa [Original.Banco.sacar, hbo] using hb
  | ok co =>
    have hn : co.numero = n := hb (n, co) (alookup_mem (origBuscar_some hbo))
    cases hm : Original.to_money v with
    | error e => simpa [Original.Banco.sacar, hbo, hm] using hb
    | ok vc =>
      have hst : (b.sacar n v).1 = b.updateConta n (co.sacar vc "saque").1 := by
        rw [Original.Banco.sacar]
        simp [hbo, hm]
      rw [hst]
      exact numeroKey_update hb (by rw [origSac_numero]; exact hn)

theorem numeroKey_transf {b : Original.Banco} (hb : numeroKeyOk b)
    (o d v : String) : numeroKeyOk (b.transferir o d v).1 := by
  by_cases ho : o = d
  · simpa [Original.Banco.transferir, ho] using hb
  · cases hm : Original.to_money v with
    | error e => simpa [Original.Banco.transferir, ho, hm] using hb
    | ok vc =>
      cases hbo : b.buscar_conta o with
      | error e => simpa [Original.Banco.transferir, ho, hm, hbo] using hb
      | ok co =>
        have hno : co.numero = o := hb (o, co) (alookup_mem (origBuscar_some hbo))
        cases hbd : b.buscar_conta d with
        | error e => simpa [Original.Banco.transferir, ho, hm, hbo, hbd] using hb
        | ok cd =>
          have hnd : cd.numero = d := hb (d, cd) (alookup_mem (origBuscar_some hbd))
          cases hrs : (co.sacar vc ("transferência para " ++ d)).2 with
          | error e =>
            have hst : (b.transferir o d v).1 =
                b.updateConta o (co.sacar vc ("transferência para " ++ d)).1 := by
              rw [Original.Banco.transferir]
              simp [ho, hm, hbo, hbd, hrs]
            rw [hst]
            exact numeroKey_update hb (by rw [origSac_numero]; exact hno)
          | ok u =>
            cases hrd : (cd.depositar vc ("transferência de " ++ o)).2 with
            | error e =>
              have hst : (b.transferir o d v).1 =
                  (b.updateConta o (co.sacar vc ("transferência para " ++ d)).1).updateConta
                    d (cd.depositar vc ("transferência de " ++ o)).1 := by
                rw [Original.Banco.transferir]
                simp [ho, hm, hbo, hbd, hrs, hrd]
              rw [hst]
              exact numeroKey_update
                (numeroKey_update hb (by rw [origSac_numero]; exact hno))
                (by rw [origDep_numero]; exact hnd)
            | ok u2 =>
              have hst : (b.transferir o d v).1 =
                  (b.updateConta o
                    { (co.sacar vc ("transferência para " ++ d)).1 with
                        historico := (co.sacar vc ("transferência para " ++ d)).1.historico ++
                          [⟨"TRANSFERENCIA", vc, "transferência", o, d⟩] }).updateConta d
                    { (cd.depositar vc ("transferência de " ++ o)).1 with
                        historico := (cd.depositar vc ("transferência de " ++ o)).1.historico ++
                          [⟨"TRANSFERENCIA", vc, "transferência", o, d⟩] } := by
                rw [Original.Banco.transferir]
                simp [ho, hm, hbo, hbd, hrs, hrd]
              rw [hst]
              exact numeroKey_update
                (numeroKey_update hb
                  (by show (co.sacar vc _).1.numero = o; rw [origSac_numero]; exact hno))
                (by show (cd.depositar vc _).1.numero = d; rw [origDep_numero]; exact hnd)

theorem numeroKey_applyO {b : Original.Banco} (hb : numeroKeyOk b) (op : Op) :
    numeroKeyOk (applyO b op).1 := by
  cases op with
  | criarCliente nome cpf => exact numeroKey_criar hb nome cpf
  | abrirConta cpf => exact numeroKey_abrir hb cpf
  | buscarConta n => exact hb
  | depositar n v => exact numeroKey_dep hb n v
  | sacar n v => exact numeroKey_sac hb n v
  | transferir o d v => exact numeroKey_transf hb o d v
  | extrato n => exact hb
  | listar => exact hb

theorem cpfKey_criar {b : Original.Banco} (hb : cpfKeyOk b)
    (nome cpf : String) : cpfKeyOk (b.criar_cliente nome cpf).2 := by
  rw [Original.Banco.criar_cliente]
  cases hl : alookup b.clientes_por_cpf cpf with
  | some c => exact hb
  | none =>
    intro p hp
    rcases mem_dictSet hp with h1 | h2
    · rw [h1]
    · exact hb p h2

theorem dep_clientes (b : Original.Banco) (n v : String) :
    (b.depositar n v).1.clientes_por_cpf = b.clientes_por_cpf := by
  cases hbo : b.buscar_conta n with
  | error e => simp [Original.Banco.depositar, hbo]
  | ok co =>
    cases hm : Original.to_money v with
    | error e => simp [Original.Banco.depositar, hbo, hm]
    | ok vc => simp [Original.Banco.depositar, hbo, hm, Original.Banco.updateConta]

theorem sac_clientes (b : Original.Banco) (n v : String) :
    (b.sacar n v).1.clientes_por_cpf = b.clientes_por_cpf := by
  cases hbo : b.buscar_conta n with
  | error e => simp [Original.Banco.sacar, hbo]
  | ok co =>
    cases hm : Original.to_money v with
    | error e => simp [Original.Banco.sacar, hbo, hm]
    | ok vc => simp [Original.Banco.sacar, hbo, hm, Original.Banco.updateConta]

theorem transf_clientes (b : Original.Banco) (o d v : String) :
    (b.transferir o d v).1.clientes_por_cpf = b.clientes_por_cpf := by
  by_cases ho : o = d
  · simp [Original.Banco.transferir, ho]
  · cases hm : Original.to_money v with
    | error e => simp [Original.Banco.transferir, ho, hm]
    | ok vc =>
      cases hbo : b.buscar_conta o with
      | error e => simp [Original.Banco.transferir, ho, hm, hbo]
      | ok co =>
        cases hbd : b.buscar_conta d with
        | error e => simp [Original.Banco.transferir, ho, hm, hbo, hbd]
        | ok cd =>
          cases hrs : (co.sacar vc ("transferência para " ++ d)).2 with
          | error e =>
            simp [Original.Banco.transferir, ho, hm, hbo, hbd, hrs,
              Original.Banco.updateConta]
          | ok u =>
            cases hrd : (cd.depositar vc ("transferência de " ++ o)).2 with
            | error e =>
              simp [Original.Banco.transferir, ho, hm, hbo, hbd, hrs, hrd,
                Original.Banco.updateConta]
            | ok u2 =>
              simp [Original.Banco.transferir, ho, hm, hbo, hbd, hrs, hrd,
                Original.Banco.updateConta]

theorem abrir_clientes (b : Original.Banco) (cpf : String) :
    (b.abrir_conta cpf).1.clientes_por_cpf = b.clientes_por_cpf := by
  rw [Original.Banco.abrir_conta]
  cases hl : alookup b.clientes_por_cpf cpf with
  | none => rfl
  | some cliente => rfl

theorem cpfKey_applyO {b : Original.Banco} (hb : cpfKeyOk b) (op : Op) :
    cpfKeyOk (applyO b op).1 := by
  cases op with
  | criarCliente nome cpf => exact cpfKey_criar hb nome cpf
  | abrirConta cpf =>
    intro p hp
    have hp2 : p ∈ (b.abrir_conta cpf).1.clientes_por_cpf := hp
    rw [abrir_clientes] at hp2
    exact hb p hp2
  | buscarConta n => exact hb
  | depositar n v =>
    intro p hp
    have hp2 : p ∈ (b.depositar n v).1.clientes_por_cpf := hp
    rw [dep_clientes] at hp2
    exact hb p hp2
  | sacar n v =>
    intro p hp
    have hp2 : p ∈ (b.sacar n v).1.clientes_por_cpf := hp
    rw [sac_clientes] at hp2
    exact hb p hp2
  | transferir o d v =>
    intro p hp
    have hp2 : p ∈ (b.transferir o d v).1.clientes_por_cpf := hp
    rw [transf_clientes] at hp2
    exact hb p hp2
  | extrato n => exact hb
  | listar => exact hb

end InvPreservation

section StepSim

theorem step_sim {bO : Original.Banco} {bS : Solid.Banco}
    (hkey : numeroKeyOk bO) (hcpf : cpfKeyOk bO)
    (hE : eraseBancoO bO = eraseBancoS bS) (op : Op) :
    eraseBancoO (applyO bO op).1 = eraseBancoS (applyS bS op).1 ∧
    resMatch (applyO bO op).2 (applyS bS op).2 := by
  cases op with
  | criarCliente nome cpf =>
    have h := sim_criar hE nome cpf
    refine ⟨h.2, Or.inl ⟨.clienteRes (bO.criar_cliente nome cpf).1, rfl, ?_⟩⟩
    show (Except.ok (Obs.clienteRes (bS.criar_cliente nome cpf).1) : Except Erro Obs) =
      Except.ok (Obs.clienteRes (bO.criar_cliente nome cpf).1)
    rw [h.1]
  | abrirConta cpf =>
    have h := sim_abrir hE cpf
    refine ⟨h.1, ?_⟩
    rcases h.2 with ⟨cO, cS, hO, hS, hc⟩ | ⟨e, hO, hS⟩
    · refine Or.inl ⟨.contaRes (eraseContaO cO), ?_, ?_⟩
      · show (bO.abrir_conta cpf).2.map (fun c => Obs.contaRes (eraseContaO c)) = _
        rw [hO]
        rfl
      · show (bS.abrir_conta cpf).2.map (fun c => Obs.contaRes (eraseContaS c)) = _
        rw [hS]
        simp only [Except.map]
        rw [← hc]
    · refine Or.inr ⟨⟨e, ?_⟩, ⟨e, ?_⟩⟩
      · show (bO.abrir_conta cpf).2.map (fun c => Obs.contaRes (eraseContaO c)) = _
        rw [hO]
        rfl
      · show (bS.abrir_conta cpf).2.map (fun c => Obs.contaRes (eraseContaS c)) = _
        rw [hS]
        rfl
  | buscarConta n =>
    refine ⟨hE, ?_⟩
    rcases sim_buscar hE n with ⟨cO, cS, hO, hS, hc⟩ | ⟨e, hO, hS⟩
    · refine Or.inl ⟨.contaRes (eraseContaO cO), ?_, ?_⟩
      · show (bO.buscar_conta n).map (fun c => Obs.contaRes (eraseContaO c)) = _
        rw [hO]
        rfl
      · show (bS.buscar_conta n).map (fun c => Obs.contaRes (eraseContaS c)) = _
        rw [hS]
        simp only [Except.map]
        rw [← hc]
    · refine Or.inr ⟨⟨e, ?_⟩, ⟨e, ?_⟩⟩
      · show (bO.buscar_conta n).map (fun c => Obs.contaRes (eraseContaO c)) = _
        rw [hO]
        rfl
      · show (bS.buscar_conta n).map (fun c => Obs.contaRes (eraseContaS c)) = _
        rw [hS]
        rfl
  | depositar n v =>
    have h := sim_dep hE n v
    refine ⟨h.1, ?_⟩
    rcases h.2 with ⟨hO, hS⟩ | ⟨e1, e2, hO, hS⟩
    · refine Or.inl ⟨.okRes, ?_, ?_⟩
      · show (bO.depositar n v).2.map (fun _ => Obs.okRes) = _
        rw [hO]
        rfl
      · show (bS.depositar n v).2.map (fun _ => Obs.okRes) = _
        rw [hS]
        rfl
    · refine Or.inr ⟨⟨e1, ?_⟩, ⟨e2, ?_⟩⟩
      · show (bO.depositar n v).2.map (fun _ => Obs.okRes) = _
        rw [hO]
        rfl
      · show (bS.depositar n v).2.map (fun _ => Obs.okRes) = _
        rw [hS]
        rfl
  | sacar n v =>
    have h := sim_sac hE n v
    refine ⟨h.1, ?_⟩
    rcases h.2 with ⟨hO, hS⟩ | ⟨e1, e2, hO, hS⟩
    · refine Or.inl ⟨.okRes, ?_, ?_⟩
      · show (bO.sacar n v).2.map (fun _ => Obs.okRes) = _
        rw [hO]
        rfl
      · show (bS.sacar n v).2.map (fun _ => Obs.okRes) = _
        rw [hS]
        rfl
    · refine Or.inr ⟨⟨e1, ?_⟩, ⟨e2, ?_⟩⟩
      · show (bO.sacar n v).2.map (fun _ => Obs.okRes) = _
        rw [hO]
        rfl
      · show (bS.sacar n v).2.map (fun _ => Obs.okRes) = _
        rw [hS]
        rfl
  | transferir o d v =>
    have h := sim_transf hkey hE o d v
    refine ⟨h.1, ?_⟩
    rcases h.2 with ⟨hO, hS⟩ | ⟨e1, e2, hO, hS⟩
    · refine Or.inl ⟨.okRes, ?_, ?_⟩
      · show (bO.transferir o d v).2.map (fun _ => Obs.okRes) = _
        rw [hO]
        rfl
      · show (bS.transferir o d v).2.map (fun _ => Obs.okRes) = _
        rw [hS]
        rfl
    · refine Or.inr ⟨⟨e1, ?_⟩, ⟨e2, ?_⟩⟩
      · show (bO.transferir o d v).2.map (fun _ => Obs.okRes) = _
        rw [hO]
        rfl
      · show (bS.transferir o d v).2.map (fun _ => Obs.okRes) = _
        rw [hS]
        rfl
  | extrato n =>
    refine ⟨hE, ?_⟩
    rcases sim_extrato hE n with ⟨lO, lS, hO, hS, hmap⟩ | ⟨e, hO, hS⟩
    · refine Or.inl ⟨.extratoRes (lO.map eraseTrans), ?_, ?_⟩
      · show (bO.extrato n).map (fun l => Obs.extratoRes (l.map eraseTrans)) = _
        rw [hO]
        rfl
      · show (bS.extrato n).map (fun l => Obs.extratoRes (l.map eraseTrans)) = _
        rw [hS]
        simp only [Except.map]
        rw [← hmap]
    · refine Or.inr ⟨⟨e, ?_⟩, ⟨e, ?_⟩⟩
      · show (bO.extrato n).map (fun l => Obs.extratoRes (l.map eraseTrans)) = _
        rw [hO]
        rfl
      · show (bS.extrato n).map (fun l => Obs.extratoRes (l.map eraseTrans)) = _
        rw [hS]
        rfl
  | listar =>
    refine ⟨hE, Or.inl ⟨_, rfl, ?_⟩⟩
    show (Except.ok (Obs.listagemRes ((bS.listar_clientes_e_contas).map
        (fun p => (p.1, p.2.map eraseContaS)))) : Except Erro Obs) = _
    rw [← sim_listar hcpf hE]

theorem sim_fold (ops : List Op) :
    ∀ (bO : Original.Banco) (bS : Solid.Banco)
      (accO accS : List (Except Erro Obs)),
      numeroKeyOk bO → cpfKeyOk bO → eraseBancoO bO = eraseBancoS bS →
      List.Forall₂ resMatch accO accS →
      eraseBancoO (ops.foldl (fun acc op =>
          let r := applyO acc.1 op
          (r.1, acc.2 ++ [r.2])) (bO, accO)).1 =
        eraseBancoS (ops.foldl (fun acc op =>
          let r := applyS acc.1 op
          (r.1, acc.2 ++ [r.2])) (bS, accS)).1 ∧
      List.Forall₂ resMatch
        (ops.foldl (fun acc op =>
          let r := applyO acc.1 op
          (r.1, acc.2 ++ [r.2])) (bO, accO)).2
        (ops.foldl (fun acc op =>
          let r := applyS acc.1 op
          (r.1, acc.2 ++ [r.2])) (bS, accS)).2 := by
  induction ops with
  | nil =>
    intro bO bS accO accS hkey hcpf hE hacc
    exact ⟨hE, hacc⟩
  | cons op t ih =>
    intro bO bS accO accS hkey hcpf hE hacc
    have hstep := step_sim hkey hcpf hE op
    exact ih (applyO bO op).1 (applyS bS op).1
      (accO ++ [(applyO bO op).2]) (accS ++ [(applyS bS op).2])
      (numeroKey_applyO hkey op) (cpfKey_applyO hcpf op) hstep.1
      (List.rel_append hacc (List.Forall₂.cons hstep.2 List.Forall₂.nil))

end StepSim

section ClaimC5

/-- C5 counterexample: the two variants are not functionally identical.
On fresh ledgers, a self-transfer at an unregistered number raises
`ValorInvalido` in the original variant but `EntidadeNaoEncontrada` in the
refactored one (validation order differs); after the same deposit the two
statements disagree in the transaction description text ("depósito" versus
"Depósito"); and the amount "NaN" crashes the original variant with an
uncaught `decimal.InvalidOperation` while the refactored variant raises
`ValorInvalido`. -/
theorem claim_C5_variant_equivalence_counterexample :
    (Original.Banco.init.transferir "1" "1" "5").2 =
      .error (.valorInvalido "contas iguais") ∧
    (Solid.Banco.init.transferir "1" "1" "5").2 =
      .error (.entidadeNaoEncontrada "conta não encontrada") ∧
    (runO [.criarCliente "Ana" "111", .abrirConta "111",
           .depositar "1001" "10"]).extrato "1001" =
      .ok [⟨"DEPOSITO", 1000, "depósito", "", "1001"⟩] ∧
    (runS [.criarCliente "Ana" "111", .abrirConta "111",
           .depositar "1001" "10"]).extrato "1001" =
      .ok [⟨"DEPOSITO", 1000, "Depósito", "", "1001"⟩] ∧
    (Original.to_money "NaN" = .error .decimalInvalidOperation ∧
     Solid.to_money "NaN" = .error (.valorInvalido "valor inválido")) ∧
    (⟨"DEPOSITO", 1000, "depósito", "", "1001"⟩ : Transacao) ≠
      ⟨"DEPOSITO", 1000, "Depósito", "", "1001"⟩ :=
  ⟨by rfl, by rfl, by rfl, by rfl, ⟨by rfl, by rfl⟩, by decide⟩

/-- C5 amended: the two variants are observationally equivalent up to
transaction description wording and error identity.  For every sequence of
public calls from fresh ledgers, the final states agree once description
strings are erased (balances, registries, counters, and the structure of
every log — kinds, amounts, sources, destinations — coincide), and call by
call the two variants succeed together with the same erased result or fail
together; when both fail the error kinds may differ (failing transfers,
because the original validates same-account and amount before resolving
accounts while the refactored resolves accounts first, and non-finite or
over-precision amounts, which crash the original but are `ValorInvalido` in
the refactored variant). -/
theorem claim_C5_variant_equivalence_amended (ops : List Op) :
    eraseBancoO (runOutO ops).1 = eraseBancoS (runOutS ops).1 ∧
    List.Forall₂ resMatch (runOutO ops).2 (runOutS ops).2 := by
  have hkey : numeroKeyOk Original.Banco.init := by
    intro p hp
    cases hp
  have hcpf : cpfKeyOk Original.Banco.init := by
    intro p hp
    cases hp
  exact sim_fold ops Original.Banco.init Solid.Banco.init [] []
    hkey hcpf rfl List.Forall₂.nil

end ClaimC5
